import Mathlib

/-!
# ClassClash: timer engine and weekly aggregator

A shallow embedding of the study timer of `app.js`, of `getWeekStart` and of the
routes of `backend/routes/sessions.js` and `backend/routes/leaderboard.js`, with
the properties of the specification stated over it.

Modelling conventions.

* JavaScript numbers that hold seconds are exact rationals (`ℚ`): the sums and
  the division by 1000 of the source are carried out without rounding.
* `Date.now()` is an explicit argument `now : Int` (milliseconds since the
  epoch) of every function that reads the clock.
* The DOM (`renderClassDetail`, `render`, `updateActiveNav`) is not part of the
  state; the functions that only write to it are omitted from the state
  transformers.
-/

namespace ClassClash

/-! ## Timer engine (`app.js`) -/

/-- The values taken by the `state` field of a timer: "idle", "running", "stopped". -/
inductive TimerState where
  | idle
  | running
  | stopped
deriving DecidableEq, Repr

/-- The object stored in `classTimers` by `initializeTimer`. `startTimestamp` is
`null` (`none`) or a reading of `Date.now()`. -/
structure Timer where
  id : String
  name : String
  savedSeconds : ℚ
  sessionSeconds : ℚ
  running : Bool
  startTimestamp : Option Int
  state : TimerState
deriving DecidableEq

/-- An entry of `CLASS_DATA`. -/
structure ClassEntry where
  id : String
  name : String
deriving DecidableEq

/-- The module-level variables of `app.js` that the timer code reads or writes:
`classTimers` (a `Map`, kept as an association list in insertion order),
`currentView`, `currentClassId` and whether `tickInterval` is set. -/
structure App where
  classTimers : List (String × Timer)
  currentView : String
  currentClassId : Option String
  tickInterval : Bool
deriving DecidableEq

/-- The method `Map.prototype.set`: replaces the value of an existing key in place, appends a new key. -/
def mapSet (m : List (String × Timer)) (k : String) (v : Timer) : List (String × Timer) :=
  match m with
  | [] => [(k, v)]
  | (k', v') :: rest => if k' = k then (k, v) :: rest else (k', v') :: mapSet rest k v

/-- The method `Map.prototype.get`: `none` stands for `undefined`. -/
def mapGet (m : List (String × Timer)) (k : String) : Option Timer :=
  match m with
  | [] => none
  | (k', v') :: rest => if k' = k then some v' else mapGet rest k

/-- The function `initializeTimer(cls)` of `app.js`. -/
def initializeTimer (app : App) (cls : ClassEntry) : App :=
  { app with
    classTimers := mapSet app.classTimers cls.id
      { id := cls.id
        name := cls.name
        savedSeconds := 0
        sessionSeconds := 0
        running := false
        startTimestamp := none
        state := TimerState.idle } }

/-- The function `getTimer(id)`. -/
def getTimer (app : App) (id : String) : Option Timer :=
  mapGet app.classTimers id

/-- The number a `startTimestamp` denotes in `Date.now() - timer.startTimestamp`:
`null` converts to `0`. -/
def tsToNumber : Option Int → Int
  | none => 0
  | some s => s

/-- Truthiness of a `startTimestamp`: `null` and `0` are falsy. -/
def tsTruthy : Option Int → Bool
  | none => false
  | some s => s != 0

/-- Truthiness of `currentClassId`: `null` and the empty string are falsy. -/
def idTruthy : Option String → Bool
  | none => false
  | some s => s != ""

/-- The term `(Date.now() - timer.startTimestamp) / 1000`. -/
def elapsedSeconds (now : Int) (startTimestamp : Option Int) : ℚ :=
  ((now - tsToNumber startTimestamp : Int) : ℚ) / 1000

/-- The function `getLiveSessionSeconds(timer)`, the argument being `undefined` (`none`) or a timer. -/
def getLiveSessionSeconds (timer : Option Timer) (now : Int) : ℚ :=
  match timer with
  | none => 0
  | some t =>
    if t.running && tsTruthy t.startTimestamp then
      t.sessionSeconds + elapsedSeconds now t.startTimestamp
    else
      t.sessionSeconds

/-- The action `timerStart(classId)`. -/
def timerStart (app : App) (classId : String) (now : Int) : App :=
  match getTimer app classId with
  | none => app
  | some timer =>
    { app with
      classTimers := mapSet app.classTimers classId
        { timer with running := true, startTimestamp := some now, state := TimerState.running }
      currentClassId := some classId
      tickInterval := true }

/-- The action `timerStop(classId)`. -/
def timerStop (app : App) (classId : String) (now : Int) : App :=
  match getTimer app classId with
  | none => app
  | some timer =>
    { app with
      classTimers := mapSet app.classTimers classId
        { timer with
          sessionSeconds := timer.sessionSeconds + elapsedSeconds now timer.startTimestamp
          startTimestamp := none
          running := false
          state := TimerState.stopped }
      tickInterval := false }

/-- The action `timerResume(classId)`. -/
def timerResume (app : App) (classId : String) (now : Int) : App :=
  match getTimer app classId with
  | none => app
  | some timer =>
    { app with
      classTimers := mapSet app.classTimers classId
        { timer with running := true, startTimestamp := some now, state := TimerState.running }
      tickInterval := true }

/-- The action `timerSave(classId)`. -/
def timerSave (app : App) (classId : String) : App :=
  match getTimer app classId with
  | none => app
  | some timer =>
    { app with
      classTimers := mapSet app.classTimers classId
        { timer with
          savedSeconds := timer.savedSeconds + timer.sessionSeconds
          sessionSeconds := 0
          startTimestamp := none
          running := false
          state := TimerState.idle }
      tickInterval := false }

/-- The action `timerDiscard(classId)`. -/
def timerDiscard (app : App) (classId : String) : App :=
  match getTimer app classId with
  | none => app
  | some timer =>
    { app with
      classTimers := mapSet app.classTimers classId
        { timer with
          sessionSeconds := 0
          startTimestamp := none
          running := false
          state := TimerState.idle }
      tickInterval := false }

/-- The function `setView(view, options)`, `classId` being `options.classId` (`none` when absent).
The closing `render()` restarts the tick when the new view is the detail of a
running timer. -/
def setView (app : App) (view : String) (classId : Option String) (now : Int) : App :=
  let timers :=
    if app.currentView = "class-detail" && idTruthy app.currentClassId then
      match app.currentClassId with
      | none => app.classTimers
      | some cur =>
        match mapGet app.classTimers cur with
        | none => app.classTimers
        | some timer =>
          if timer.running then
            mapSet app.classTimers cur
              { timer with
                sessionSeconds := timer.sessionSeconds + elapsedSeconds now timer.startTimestamp
                startTimestamp := none
                running := false
                state := TimerState.stopped }
          else app.classTimers
    else app.classTimers
  let newId : Option String := if idTruthy classId then classId else none
  let tick :=
    if view = "class-detail" && idTruthy newId then
      match newId with
      | none => false
      | some cur =>
        match mapGet timers cur with
        | none => false
        | some timer => timer.running
    else false
  { classTimers := timers, currentView := view, currentClassId := newId, tickInterval := tick }

/-- The application state before any class has been added: `classTimers` empty,
`currentView = "home"`, `currentClassId = null`, no tick interval. -/
def initialApp : App :=
  { classTimers := [], currentView := "home", currentClassId := none, tickInterval := false }

/-- What can happen to the timers: a class is added and its timer initialised, one
of the five timer actions is invoked for a class id at a clock reading, or the
view is changed (`setView`). -/
inductive TimerEvent where
  | addClass (cls : ClassEntry)
  | start (classId : String) (now : Int)
  | stop (classId : String) (now : Int)
  | resume (classId : String) (now : Int)
  | save (classId : String)
  | discard (classId : String)
  | setView (view : String) (classId : Option String) (now : Int)
deriving DecidableEq

/-- The state after one event. -/
def applyEvent (app : App) : TimerEvent → App
  | TimerEvent.addClass cls => initializeTimer app cls
  | TimerEvent.start classId now => timerStart app classId now
  | TimerEvent.stop classId now => timerStop app classId now
  | TimerEvent.resume classId now => timerResume app classId now
  | TimerEvent.save classId => timerSave app classId
  | TimerEvent.discard classId => timerDiscard app classId
  | TimerEvent.setView view classId now => setView app view classId now

/-- The state after a sequence of events, the first event of the list first. -/
def runEvents (app : App) : List TimerEvent → App
  | [] => app
  | e :: rest => runEvents (applyEvent app e) rest

/-- The clock reading an event carries, if it carries one. -/
def eventClock : TimerEvent → Option Int
  | TimerEvent.addClass _ => none
  | TimerEvent.start _ now => some now
  | TimerEvent.stop _ now => some now
  | TimerEvent.resume _ now => some now
  | TimerEvent.save _ => none
  | TimerEvent.discard _ => none
  | TimerEvent.setView _ _ now => some now

/-- Whether the clock readings of a sequence of events never decrease and are never
below `last`, the latest reading before the sequence. -/
def clockOrdered (last : Int) : List TimerEvent → Bool
  | [] => true
  | e :: rest =>
    match eventClock e with
    | none => clockOrdered last rest
    | some now => decide (last ≤ now) && clockOrdered now rest

/-- The latest clock reading after a sequence of events, `last` being the latest
reading before it. -/
def lastClock (last : Int) : List TimerEvent → Int
  | [] => last
  | e :: rest =>
    match eventClock e with
    | none => lastClock last rest
    | some now => lastClock now rest

/-- The shape of the timers the engine produces: `startTimestamp` is set exactly in
state "running", the `running` flag is set exactly in state "running", and an idle
timer has no unsaved session seconds. -/
def Timer.WellFormed (t : Timer) : Prop :=
  (t.startTimestamp ≠ none ↔ t.state = TimerState.running) ∧
  (t.running = true ↔ t.state = TimerState.running) ∧
  (t.state = TimerState.idle → t.sessionSeconds = 0)

/-- A request that `apiRequest` of `api-client.js` sends to the backend for a study
session: the endpoint, the method and the values in the JSON body. -/
structure ApiRequest where
  endpoint : String
  method : String
  classId : String
  seconds : ℚ
  weekStart : Option String
deriving DecidableEq

/-- The request of `sessions.record(classId, seconds, weekStart)` of `api-client.js`:
`POST /sessions` with `{ classId, seconds, weekStart }` as body. -/
def sessionsRecord (classId : String) (seconds : ℚ) (weekStart : Option String) : ApiRequest :=
  { endpoint := "/sessions", method := "POST", classId := classId, seconds := seconds,
    weekStart := weekStart }

/-- What a function of `app.js` does besides assigning to the timers: the calls it
makes, in order. -/
inductive Effect where
  | startTick
  | stopTick
  | renderClassDetail (classId : String)
  | apiRequest (request : ApiRequest)
deriving DecidableEq

/-- The calls that `timerSave(classId)` makes: none when there is no timer, else
`stopTick()` and `renderClassDetail(classId)`. -/
def timerSaveEffects (app : App) (classId : String) : List Effect :=
  match getTimer app classId with
  | none => []
  | some _ => [Effect.stopTick, Effect.renderClassDetail classId]

/-- The record-session requests among the calls made. -/
def sessionReports : List Effect → List ApiRequest
  | [] => []
  | Effect.apiRequest request :: rest =>
    if request.endpoint = "/sessions" ∧ request.method = "POST" then
      request :: sessionReports rest
    else sessionReports rest
  | _ :: rest => sessionReports rest

/-- Milliseconds per day. -/
def msPerDay : Int := 86400000

/-- The day number of a time value, `floor(t / msPerDay)`. -/
def Day (t : Int) : Int := t / msPerDay

/-- The milliseconds elapsed within the day of a time value. -/
def TimeWithinDay (t : Int) : Int := t % msPerDay

/-- The number of days of year `y`. -/
def DaysInYear (y : Int) : Int :=
  if y % 4 ≠ 0 then 365
  else if y % 100 ≠ 0 then 366
  else if y % 400 ≠ 0 then 365
  else 366

/-- The day number of the first day of year `y`. -/
def DayFromYear (y : Int) : Int :=
  365 * (y - 1970) + (y - 1969) / 4 - (y - 1901) / 100 + (y - 1601) / 400

/-- The year of a day number: the largest `y` with `DayFromYear y ≤ d`, found by
correcting the estimate `1970 + floor(400 d / 146097)` by at most one. -/
def yearFromDay (d : Int) : Int :=
  let y := 1970 + (400 * d) / 146097
  if d < DayFromYear y then y - 1
  else if DayFromYear (y + 1) ≤ d then y + 1
  else y

/-- The year in which a time value falls. -/
def YearFromTime (t : Int) : Int := yearFromDay (Day t)

/-- Leap-year flag of a time value, `1` in a leap year and `0` otherwise. -/
def InLeapYear (t : Int) : Int :=
  if DaysInYear (YearFromTime t) = 366 then 1 else 0

/-- The day number within the year, `0` for 1 January. -/
def DayWithinYear (t : Int) : Int := Day t - DayFromYear (YearFromTime t)

/-- The month in which day `d` of a year falls (`d = 0` for 1 January), `l` being the
leap-year flag; `0` for January to `11` for December. -/
def monthOfDayWithinYear (d l : Int) : Int :=
  if d < 31 then 0
  else if d < 59 + l then 1
  else if d < 90 + l then 2
  else if d < 120 + l then 3
  else if d < 151 + l then 4
  else if d < 181 + l then 5
  else if d < 212 + l then 6
  else if d < 243 + l then 7
  else if d < 273 + l then 8
  else if d < 304 + l then 9
  else if d < 334 + l then 10
  else 11

/-- The month of a time value, `0` for January to `11` for December. -/
def MonthFromTime (t : Int) : Int :=
  monthOfDayWithinYear (DayWithinYear t) (InLeapYear t)

/-- The day number within the year of the first day of month `m` (`0`..`11`),
`l` being the leap-year flag. -/
def monthStartDay (m l : Int) : Int :=
  if m = 0 then 0
  else if m = 1 then 31
  else if m = 2 then 59 + l
  else if m = 3 then 90 + l
  else if m = 4 then 120 + l
  else if m = 5 then 151 + l
  else if m = 6 then 181 + l
  else if m = 7 then 212 + l
  else if m = 8 then 243 + l
  else if m = 9 then 273 + l
  else if m = 10 then 304 + l
  else 334 + l

/-- The day of the month of a time value, `1` to `31`. -/
def DateFromTime (t : Int) : Int :=
  DayWithinYear t - monthStartDay (MonthFromTime t) (InLeapYear t) + 1

/-- The day of the week of a time value, `0` for Sunday to `6` for Saturday. -/
def WeekDay (t : Int) : Int := (Day t + 4) % 7

/-- The day number of day `date` of month `month` of year `year`; `month` outside
`0`..`11` carries into the year and `date` outside the month carries into the
neighbouring months. -/
def MakeDay (year month date : Int) : Int :=
  let ym := year + month / 12
  let mn := month % 12
  DayFromYear ym + monthStartDay mn (if DaysInYear ym = 366 then 1 else 0) + date - 1

/-- The time value of a day number and a time within the day. -/
def MakeDate (day time : Int) : Int := day * msPerDay + time

/-- The milliseconds of a time of day. -/
def MakeTime (hour min sec ms : Int) : Int :=
  hour * 3600000 + min * 60000 + sec * 1000 + ms

/-- Local time of a UTC time value. -/
def LocalTime (tza t : Int) : Int := t + tza

/-- The UTC time value of a local time. -/
def UTC (tza t : Int) : Int := t - tza

/-- The method `Date.prototype.getDay`. -/
def getDay (tza d : Int) : Int := WeekDay (LocalTime tza d)

/-- The method `Date.prototype.getDate`. -/
def getDate (tza d : Int) : Int := DateFromTime (LocalTime tza d)

/-- The method `Date.prototype.setDate`: the new time value, which the call also returns. -/
def setDate (tza d dt : Int) : Int :=
  let t := LocalTime tza d
  UTC tza (MakeDate (MakeDay (YearFromTime t) (MonthFromTime t) dt) (TimeWithinDay t))

/-- The method `Date.prototype.setHours` with all four arguments given. -/
def setHours (tza d hour min sec ms : Int) : Int :=
  let t := LocalTime tza d
  UTC tza (MakeDate (Day t) (MakeTime hour min sec ms))

/-- A calendar date as written in a `YYYY-MM-DD` string: year, month `1`..`12`, day. -/
structure IsoDate where
  year : Int
  month : Int
  day : Int
deriving DecidableEq, Repr

/-- The date part of `Date.prototype.toISOString`, that is `toISOString().split('T')[0]`:
the calendar date of the time value in UTC. -/
def toISODate (t : Int) : IsoDate :=
  { year := YearFromTime t, month := MonthFromTime t + 1, day := DateFromTime t }

/-- The time value of `new Date(s)` for a date-only string `s` of the form `YYYY-MM-DD`: midnight UTC
of that calendar date. -/
def dateOfISODate (s : IsoDate) : Int :=
  MakeDate (MakeDay s.year (s.month - 1) s.day) 0

/-- The day of the week of the calendar date a `YYYY-MM-DD` string denotes. -/
def IsoDate.weekDay (s : IsoDate) : Int := WeekDay (dateOfISODate s)

/-- The decimal digit character of `n % 10`. -/
def digitChar (n : Nat) : Char :=
  Char.ofNat (48 + n % 10)

/-- A natural number below 100 as two digits, `padStart(2, "0")`. -/
def pad2 (n : Nat) : String :=
  String.mk [digitChar (n / 10), digitChar n]

/-- A natural number below 10000 as four digits. -/
def pad4 (n : Nat) : String :=
  String.mk [digitChar (n / 1000), digitChar (n / 100), digitChar (n / 10), digitChar n]

/-- A natural number below 1000000 as six digits. -/
def pad6 (n : Nat) : String :=
  String.mk [digitChar (n / 100000), digitChar (n / 10000), digitChar (n / 1000),
    digitChar (n / 100), digitChar (n / 10), digitChar n]

/-- The text of a `YYYY-MM-DD` date as `toISOString` writes it: four digits for the
years 0 to 9999, a sign and six digits otherwise. -/
def IsoDate.text (s : IsoDate) : String :=
  let y :=
    if 0 ≤ s.year ∧ s.year ≤ 9999 then pad4 s.year.toNat
    else if s.year < 0 then "-" ++ pad6 s.year.natAbs
    else "+" ++ pad6 s.year.natAbs
  y ++ "-" ++ pad2 s.month.toNat ++ "-" ++ pad2 s.day.toNat

/-- The function `getWeekStart(date)` of `routes/sessions.js` and `routes/leaderboard.js`, `date`
being the time value of `new Date(date)`; the result is the date of the returned
`YYYY-MM-DD` string. -/
def getWeekStart (tza date : Int) : IsoDate :=
  let d := date
  let day := getDay tza d
  let diff := getDate tza d - day + (if day = 0 then -6 else 1)
  let monday := setDate tza d diff
  let monday := setHours tza monday 0 0 0 0
  toISODate monday

/-- The call `getWeekStart(s)` for a date-only string `s`, as in `getWeekStart("2025-06-02")`. -/
def getWeekStartOfString (tza : Int) (s : IsoDate) : IsoDate :=
  getWeekStart tza (dateOfISODate s)

/-- The time value of `d.setDate(diff)` in `getWeekStart`, `diff` being
`d.getDate() - day + (day === 0 ? -6 : 1)` with `day = d.getDay()`. -/
def weekStartSetDate (tza d : Int) : Int :=
  setDate tza d (getDate tza d - getDay tza d + (if getDay tza d = 0 then -6 else 1))

/-- The latest Monday on or before a day, following the words of the specification:
the day number minus `(day + 6) mod 7`, `day` being its day of the week. -/
def mondayOnOrBefore (dayNumber : Int) : Int :=
  dayNumber - (((dayNumber + 4) % 7 + 6) % 7)

/-! ## Weekly aggregator (`backend/routes/sessions.js`, `backend/models/db.js`)

The store is the content of the tables of `db.js`. A request body is typed:
`classId` is an integer or absent, `seconds` a number or absent, `weekStart` a
string or absent. A failure of the store (the `err` argument of the sqlite3
callbacks) is an explicit input of the handlers. Column affinity conversions of
SQLite are not represented: a `week_start` is compared as the string given. -/

/-- A row of the `users` table (the columns the routes modelled here read). -/
structure UserRow where
  id : Int
  username : String
deriving DecidableEq

/-- A row of the `classes` table. -/
structure ClassRow where
  id : Int
  user_id : Int
  name : String
deriving DecidableEq

/-- A row of the `study_sessions` table. -/
structure StudySession where
  id : Int
  user_id : Int
  class_id : Int
  seconds : ℚ
  week_start : String
  created_at : Int
deriving DecidableEq

/-- The store: the `users`, `classes` and `study_sessions` tables, and the last id
that `AUTOINCREMENT` gave to a session. -/
structure Db where
  users : List UserRow
  classes : List ClassRow
  study_sessions : List StudySession
  sessionSeq : Int
deriving DecidableEq

/-- Which of the sqlite3 calls report an error to their callback. -/
structure StoreFaults where
  get : Bool
  run : Bool
  all : Bool := false
deriving DecidableEq

/-- The accesses a handler makes to the store, in order. -/
inductive StoreCall where
  | getDb
  | get
  | run
  | all
deriving DecidableEq, Repr

/-- The body of `POST /sessions`. -/
structure RecordBody where
  classId : Option Int
  seconds : Option ℚ
  weekStart : Option String
deriving DecidableEq

/-- The `session` object of the 201 reply. -/
structure SessionJson where
  id : Int
  user_id : Int
  class_id : Int
  seconds : ℚ
  week_start : String
deriving DecidableEq

/-- An entry of the `leaderboard` array of the leaderboard reply. -/
structure LeaderboardEntry where
  rank : Nat
  userId : Int
  username : String
  totalSeconds : ℚ
deriving DecidableEq

/-- The replies of the session and leaderboard routes; `totals` is the object that
maps a class id to its seconds, kept as an association list. -/
inductive Reply where
  | error (status : Nat) (message : String)
  | created (session : SessionJson)
  | weeklyTotal (classId : Option Int) (weekStart : String) (totalSeconds : ℚ)
  | weeklyTotals (weekStart : String) (totals : List (Int × ℚ))
  | leaderboard (classId : Option Int) (weekStart : String)
      (leaderboard : List LeaderboardEntry)
deriving DecidableEq

/-- What a handler leaves behind: its reply, the store, and the store accesses made. -/
structure Outcome where
  reply : Reply
  db : Db
  calls : List StoreCall
deriving DecidableEq

/-- The week a handler uses, `weekStart || getWeekStart()`: an absent or empty
`weekStart` is falsy and gives way to the week of the current date. -/
def weekOrDefault (tza now : Int) (weekStart : Option String) : String :=
  match weekStart with
  | none => (getWeekStart tza now).text
  | some s => if s != "" then s else (getWeekStart tza now).text

/-- The query `SELECT id FROM classes WHERE id = ? AND user_id = ?`: its first row, if any. -/
def selectClass (db : Db) (classId userId : Int) : Option ClassRow :=
  db.classes.find? (fun c => c.id = classId ∧ c.user_id = userId)

/-- The validation of `POST /`: `!classId || seconds === undefined || seconds < 0`. -/
def recordInvalid (body : RecordBody) : Bool :=
  (match body.classId with
    | none => true
    | some c => c == 0) ||
  (match body.seconds with
    | none => true
    | some s => decide (s < 0))

/-- The handler of `POST /` (record a study session) for the authenticated user
`userId`; `now` is the clock and `tza` the time zone offset of the server. -/
def recordSession (tza now : Int) (faults : StoreFaults) (db : Db) (userId : Int)
    (body : RecordBody) : Outcome :=
  if recordInvalid body then
    { reply := Reply.error 400 "classId and seconds (>= 0) are required", db := db, calls := [] }
  else
    match body.classId, body.seconds with
    | some classId, some seconds =>
      let week := weekOrDefault tza now body.weekStart
      if faults.get then
        { reply := Reply.error 500 "Database error", db := db,
          calls := [StoreCall.getDb, StoreCall.get] }
      else
        match selectClass db classId userId with
        | none =>
          { reply := Reply.error 404 "Class not found", db := db,
            calls := [StoreCall.getDb, StoreCall.get] }
        | some _ =>
          if faults.run then
            { reply := Reply.error 500 "Failed to record session", db := db,
              calls := [StoreCall.getDb, StoreCall.get, StoreCall.run] }
          else
            let lastID := db.sessionSeq + 1
            { reply := Reply.created
                { id := lastID, user_id := userId, class_id := classId, seconds := seconds,
                  week_start := week }
              db :=
                { db with
                  study_sessions := db.study_sessions ++
                    [{ id := lastID, user_id := userId, class_id := classId, seconds := seconds,
                       week_start := week, created_at := now }]
                  sessionSeq := lastID }
              calls := [StoreCall.getDb, StoreCall.get, StoreCall.run] }
    | _, _ =>
      { reply := Reply.error 400 "classId and seconds (>= 0) are required", db := db, calls := [] }

/-- The `WHERE user_id = ? AND class_id = ? AND week_start = ?` of the weekly total;
a `classId` that `parseInt` could not read (`none`) matches no row. -/
def sessionMatches (userId : Int) (classId : Option Int) (weekStart : String)
    (s : StudySession) : Bool :=
  s.user_id == userId && some s.class_id == classId && s.week_start == weekStart

/-- SQL `SUM`: `NULL` (`none`) over no rows. -/
def sqlSum : List ℚ → Option ℚ
  | [] => none
  | x :: rest => some (x + (sqlSum rest).getD 0)

/-- SQL `COALESCE(x, 0)`. -/
def coalesceZero : Option ℚ → ℚ
  | none => 0
  | some x => x

/-- The expression `x || 0` on a number. -/
def orZero (x : ℚ) : ℚ := if x = 0 then 0 else x

/-- The query of `GET /weekly/:classId`: `COALESCE(SUM(seconds), 0)` over the matching rows. -/
def selectWeeklyTotal (db : Db) (userId : Int) (classId : Option Int) (weekStart : String) : ℚ :=
  coalesceZero (sqlSum ((db.study_sessions.filter (sessionMatches userId classId weekStart)).map
    StudySession.seconds))

/-- The `totalSeconds` that `GET /weekly/:classId` reports, `result.total_seconds || 0`. -/
def weeklyTotalSeconds (db : Db) (userId : Int) (classId : Option Int) (weekStart : String) : ℚ :=
  orZero (selectWeeklyTotal db userId classId weekStart)

/-- The handler of `GET /weekly/:classId`; `classId` is `parseInt(req.params.classId)`
and `weekStart` is `req.query.weekStart`. -/
def weeklyTotal (tza now : Int) (faults : StoreFaults) (db : Db) (userId : Int)
    (classId : Option Int) (weekStart : Option String) : Outcome :=
  let week := weekOrDefault tza now weekStart
  if faults.get then
    { reply := Reply.error 500 "Failed to fetch weekly total", db := db,
      calls := [StoreCall.getDb, StoreCall.get] }
  else
    { reply := Reply.weeklyTotal classId week (weeklyTotalSeconds db userId classId week)
      db := db
      calls := [StoreCall.getDb, StoreCall.get] }

/-- No store failure. -/
def noFaults : StoreFaults := { get := false, run := false, all := false }

/-- A store with two users, two classes of user 1 (ids 5 and 6) and one of user 2
(id 7), and four sessions: 120 s and 300 s of user 1 for class 5 in the week
"2025-06-02", one of user 1 for class 5 in the week before, one of user 2 for
class 7. -/
def sampleDb : Db :=
  { users := [{ id := 1, username := "ada" }, { id := 2, username := "grace" }]
    classes :=
      [{ id := 5, user_id := 1, name := "Math" }, { id := 6, user_id := 1, name := "Physics" },
       { id := 7, user_id := 2, name := "Math" }]
    study_sessions :=
      [{ id := 1, user_id := 1, class_id := 5, seconds := 120, week_start := "2025-06-02",
         created_at := 1749038400000 },
       { id := 2, user_id := 1, class_id := 5, seconds := 60, week_start := "2025-05-26",
         created_at := 1749038400000 },
       { id := 3, user_id := 2, class_id := 7, seconds := 45, week_start := "2025-06-02",
         created_at := 1749038400000 },
       { id := 4, user_id := 1, class_id := 5, seconds := 300, week_start := "2025-06-02",
         created_at := 1749038400000 }]
    sessionSeq := 4 }

/-- A result row of the leaderboard query. -/
structure LeaderboardRow where
  user_id : Int
  username : String
  total_seconds : ℚ
deriving DecidableEq

/-- The query of `GET /:classId` of the leaderboard route. Every user is joined
(`LEFT JOIN`) with their sessions of the class and week and the rows are grouped
by user (`users.id` is the primary key, so a group is one user);
`COALESCE(SUM(ss.seconds), 0)` is the user's total; `HAVING total_seconds > 0`,
`ORDER BY total_seconds DESC`, `LIMIT 100`. Among equal totals SQL fixes no
order; the sort used here keeps the order of the `users` table. -/
def selectLeaderboard (db : Db) (classId : Option Int) (weekStart : String) :
    List LeaderboardRow :=
  let grouped : List LeaderboardRow := db.users.map (fun u =>
    { user_id := u.id
      username := u.username
      total_seconds := coalesceZero (sqlSum
        ((db.study_sessions.filter (sessionMatches u.id classId weekStart)).map
          StudySession.seconds)) })
  let having := grouped.filter (fun r => decide (0 < r.total_seconds))
  let ordered := having.insertionSort (fun a b => b.total_seconds ≤ a.total_seconds)
  ordered.take 100

/-- The `results.map((row, index) => ...)` of the leaderboard route, `index` being the
position of the first row: `rank = index + 1`, `totalSeconds = row.total_seconds || 0`. -/
def rankRows (index : Nat) : List LeaderboardRow → List LeaderboardEntry
  | [] => []
  | row :: rest =>
    { rank := index + 1, userId := row.user_id, username := row.username,
      totalSeconds := orZero row.total_seconds } :: rankRows (index + 1) rest

/-- The `leaderboard` array of the reply for a class and week. -/
def leaderboardEntries (db : Db) (classId : Option Int) (weekStart : String) :
    List LeaderboardEntry :=
  rankRows 0 (selectLeaderboard db classId weekStart)

/-- The handler of `GET /:classId` of the leaderboard route; `classId` is
`parseInt(req.params.classId)` and `weekStart` is `req.query.weekStart`. -/
def leaderboard (tza now : Int) (faults : StoreFaults) (db : Db) (classId : Option Int)
    (weekStart : Option String) : Outcome :=
  let week := weekOrDefault tza now weekStart
  if faults.all then
    { reply := Reply.error 500 "Failed to fetch leaderboard", db := db,
      calls := [StoreCall.getDb, StoreCall.all] }
  else
    { reply := Reply.leaderboard classId week (leaderboardEntries db classId week)
      db := db
      calls := [StoreCall.getDb, StoreCall.all] }

/-- A store with three users and sessions for class 5 in the week "2025-06-02":
user 1 has 120 s and 300 s, user 2 has 500 s, user 3 has none (their session is
of another week). -/
def leaderboardDb : Db :=
  { users := [{ id := 1, username := "ada" }, { id := 2, username := "grace" },
      { id := 3, username := "edsger" }]
    classes := [{ id := 5, user_id := 1, name := "Math" }]
    study_sessions :=
      [{ id := 1, user_id := 1, class_id := 5, seconds := 120, week_start := "2025-06-02",
         created_at := 1749038400000 },
       { id := 2, user_id := 2, class_id := 5, seconds := 500, week_start := "2025-06-02",
         created_at := 1749038400000 },
       { id := 3, user_id := 3, class_id := 5, seconds := 75, week_start := "2025-05-26",
         created_at := 1749038400000 },
       { id := 4, user_id := 1, class_id := 5, seconds := 300, week_start := "2025-06-02",
         created_at := 1749038400000 }]
    sessionSeq := 4 }

theorem mapGet_mapSet_self (m : List (String × Timer)) (k : String) (v : Timer) :
    mapGet (mapSet m k v) k = some v := by
  induction m with
  | nil => simp [mapSet, mapGet]
  | cons p rest ih =>
    obtain ⟨k', v'⟩ := p
    by_cases h : k' = k
    · simp [mapSet, mapGet, h]
    · simp [mapSet, mapGet, h, ih]

theorem mapGet_mapSet_other (m : List (String × Timer)) (k k' : String) (v : Timer)
    (h : k' ≠ k) : mapGet (mapSet m k v) k' = mapGet m k' := by
  induction m with
  | nil => simp [mapSet, mapGet, Ne.symm h]
  | cons p rest ih =>
    obtain ⟨k₀, v₀⟩ := p
    by_cases h₀ : k₀ = k
    · subst h₀
      simp [mapSet, mapGet, Ne.symm h]
    · by_cases h₁ : k₀ = k'
      · subst h₁
        simp [mapSet, mapGet, h₀]
      · simp [mapSet, mapGet, h₀, h₁, ih]

/-- The live query on a timer, by cases: the running flag set and a non-zero
`startTimestamp` give `sessionSeconds` plus the elapsed seconds; anything else
gives `sessionSeconds`. -/
theorem getLiveSessionSeconds_cases (t : Timer) (now : Int) :
    (∀ s : Int, t.running = true → t.startTimestamp = some s → s ≠ 0 →
      getLiveSessionSeconds (some t) now = t.sessionSeconds + ((now - s : Int) : ℚ) / 1000) ∧
    (t.running = false → getLiveSessionSeconds (some t) now = t.sessionSeconds) ∧
    (t.startTimestamp = none → getLiveSessionSeconds (some t) now = t.sessionSeconds) ∧
    (t.startTimestamp = some 0 → getLiveSessionSeconds (some t) now = t.sessionSeconds) := by
  refine ⟨?_, ?_, ?_, ?_⟩
  · intro s hr hs h0
    simp [getLiveSessionSeconds, hr, hs, tsTruthy, h0, elapsedSeconds, tsToNumber]
  · intro hr
    simp [getLiveSessionSeconds, hr]
  · intro hs
    simp [getLiveSessionSeconds, hs, tsTruthy]
  · intro hs
    simp [getLiveSessionSeconds, hs, tsTruthy]

/-! ### Timer engine: properties -/

/-- C2. `timerSave` on an existing timer adds `sessionSeconds` to `savedSeconds`,
resets `sessionSeconds` to 0 and leaves the timer idle with `startTimestamp = null`. -/
theorem timerSave_commits_session (app : App) (classId : String) (t : Timer)
    (h : getTimer app classId = some t) :
    ∃ t', getTimer (timerSave app classId) classId = some t' ∧
      t'.savedSeconds = t.savedSeconds + t.sessionSeconds ∧
      t'.sessionSeconds = 0 ∧
      t'.state = TimerState.idle ∧
      t'.startTimestamp = none := by
  refine ⟨{ t with
      savedSeconds := t.savedSeconds + t.sessionSeconds
      sessionSeconds := 0
      startTimestamp := none
      running := false
      state := TimerState.idle }, ?_, rfl, rfl, rfl, rfl⟩
  simp only [getTimer] at h
  simp [timerSave, getTimer, h, mapGet_mapSet_self]

/-- Witness of C2: a timer stopped with 25 s in its session, saved. -/
theorem timerSave_commits_session_witness :
    ∃ t', getTimer
        (timerSave
          (timerStop (timerStart (initializeTimer initialApp ⟨"math", "Math"⟩) "math" 0)
            "math" 25000)
          "math") "math" = some t' ∧
      t'.savedSeconds = 0 + (0 + ((25000 - 0 : Int) : ℚ) / 1000) ∧
      t'.sessionSeconds = 0 ∧
      t'.state = TimerState.idle ∧
      t'.startTimestamp = none :=
  timerSave_commits_session
    (timerStop (timerStart (initializeTimer initialApp ⟨"math", "Math"⟩) "math" 0) "math" 25000)
    "math"
    { id := "math", name := "Math", savedSeconds := 0
      sessionSeconds := 0 + ((25000 - 0 : Int) : ℚ) / 1000
      running := false, startTimestamp := none, state := TimerState.stopped }
    (by simp [timerStop, timerStart, initializeTimer, initialApp, getTimer, mapSet, mapGet,
      elapsedSeconds, tsToNumber])

theorem DayFromYear_succ (y : Int) : DayFromYear (y + 1) = DayFromYear y + DaysInYear y := by
  unfold DayFromYear DaysInYear
  split_ifs <;> omega

theorem yearEstimate_bounds (d y : Int) (h1 : 146097 * (y - 1970) ≤ 400 * d)
    (h2 : 400 * d < 146097 * (y - 1970) + 146097) :
    DayFromYear (y - 1) ≤ d ∧ d < DayFromYear (y + 2) := by
  unfold DayFromYear
  constructor <;> omega

/-- The year computed for a day is the year that contains it. -/
theorem yearFromDay_spec (d : Int) :
    DayFromYear (yearFromDay d) ≤ d ∧ d < DayFromYear (yearFromDay d + 1) := by
  have hb := yearEstimate_bounds d (1970 + (400 * d) / 146097) (by omega) (by omega)
  unfold yearFromDay
  simp only []
  generalize 1970 + (400 * d) / 146097 = y at hb ⊢
  split_ifs with h1 h2
  · rw [sub_add_cancel]; exact ⟨hb.1, h1⟩
  · rw [show y + 1 + 1 = y + 2 by ring]; exact ⟨h2, hb.2⟩
  · exact ⟨not_lt.mp h1, not_le.mp h2⟩

theorem DayWithinYear_bounds (t : Int) :
    0 ≤ DayWithinYear t ∧ DayWithinYear t < DaysInYear (YearFromTime t) := by
  have h := yearFromDay_spec (Day t)
  rw [DayFromYear_succ] at h
  unfold DayWithinYear YearFromTime
  omega

theorem monthOfDayWithinYear_bounds (d l : Int) :
    0 ≤ monthOfDayWithinYear d l ∧ monthOfDayWithinYear d l ≤ 11 := by
  unfold monthOfDayWithinYear
  by_cases h0 : d < 31
  · rw [if_pos h0]; omega
  rw [if_neg h0]
  by_cases h1 : d < 59 + l
  · rw [if_pos h1]; omega
  rw [if_neg h1]
  by_cases h2 : d < 90 + l
  · rw [if_pos h2]; omega
  rw [if_neg h2]
  by_cases h3 : d < 120 + l
  · rw [if_pos h3]; omega
  rw [if_neg h3]
  by_cases h4 : d < 151 + l
  · rw [if_pos h4]; omega
  rw [if_neg h4]
  by_cases h5 : d < 181 + l
  · rw [if_pos h5]; omega
  rw [if_neg h5]
  by_cases h6 : d < 212 + l
  · rw [if_pos h6]; omega
  rw [if_neg h6]
  by_cases h7 : d < 243 + l
  · rw [if_pos h7]; omega
  rw [if_neg h7]
  by_cases h8 : d < 273 + l
  · rw [if_pos h8]; omega
  rw [if_neg h8]
  by_cases h9 : d < 304 + l
  · rw [if_pos h9]; omega
  rw [if_neg h9]
  by_cases h10 : d < 334 + l
  · rw [if_pos h10]; omega
  rw [if_neg h10]
  omega

theorem MonthFromTime_bounds (t : Int) : 0 ≤ MonthFromTime t ∧ MonthFromTime t ≤ 11 :=
  monthOfDayWithinYear_bounds _ _

theorem date_in_month_bounds (d l : Int) (hl : l = 0 ∨ l = 1) (h0 : 0 ≤ d) (h1 : d < 365 + l) :
    1 ≤ d - monthStartDay (monthOfDayWithinYear d l) l + 1 ∧
      d - monthStartDay (monthOfDayWithinYear d l) l + 1 ≤ 31 := by
  unfold monthOfDayWithinYear
  by_cases h0 : d < 31
  · rw [if_pos h0]; (norm_num [monthStartDay]; omega)
  rw [if_neg h0]
  by_cases h1 : d < 59 + l
  · rw [if_pos h1]; (norm_num [monthStartDay]; omega)
  rw [if_neg h1]
  by_cases h2 : d < 90 + l
  · rw [if_pos h2]; (norm_num [monthStartDay]; omega)
  rw [if_neg h2]
  by_cases h3 : d < 120 + l
  · rw [if_pos h3]; (norm_num [monthStartDay]; omega)
  rw [if_neg h3]
  by_cases h4 : d < 151 + l
  · rw [if_pos h4]; (norm_num [monthStartDay]; omega)
  rw [if_neg h4]
  by_cases h5 : d < 181 + l
  · rw [if_pos h5]; (norm_num [monthStartDay]; omega)
  rw [if_neg h5]
  by_cases h6 : d < 212 + l
  · rw [if_pos h6]; (norm_num [monthStartDay]; omega)
  rw [if_neg h6]
  by_cases h7 : d < 243 + l
  · rw [if_pos h7]; (norm_num [monthStartDay]; omega)
  rw [if_neg h7]
  by_cases h8 : d < 273 + l
  · rw [if_pos h8]; (norm_num [monthStartDay]; omega)
  rw [if_neg h8]
  by_cases h9 : d < 304 + l
  · rw [if_pos h9]; (norm_num [monthStartDay]; omega)
  rw [if_neg h9]
  by_cases h10 : d < 334 + l
  · rw [if_pos h10]; (norm_num [monthStartDay]; omega)
  rw [if_neg h10]
  (norm_num [monthStartDay]; omega)

theorem DateFromTime_bounds (t : Int) : 1 ≤ DateFromTime t ∧ DateFromTime t ≤ 31 := by
  have h := DayWithinYear_bounds t
  unfold DateFromTime MonthFromTime
  apply date_in_month_bounds
  · unfold InLeapYear; split_ifs <;> simp
  · exact h.1
  · have h2 := h.2
    unfold InLeapYear DaysInYear at *
    split_ifs at h2 ⊢ <;> omega

theorem WeekDay_bounds (t : Int) : 0 ≤ WeekDay t ∧ WeekDay t ≤ 6 := by
  unfold WeekDay
  omega

theorem TimeWithinDay_bounds (t : Int) : 0 ≤ TimeWithinDay t ∧ TimeWithinDay t < msPerDay := by
  unfold TimeWithinDay msPerDay
  omega

theorem Day_MakeDate (day time : Int) (h0 : 0 ≤ time) (h1 : time < msPerDay) :
    Day (MakeDate day time) = day := by
  unfold Day MakeDate msPerDay at *
  omega

/-- Setting the day of the month moves the day number by the change of the date,
whatever the new value is. -/
theorem MakeDay_of_time (t dt : Int) :
    MakeDay (YearFromTime t) (MonthFromTime t) dt = Day t - DateFromTime t + dt := by
  have hm := MonthFromTime_bounds t
  have h1 : MonthFromTime t / 12 = 0 := by omega
  have h2 : MonthFromTime t % 12 = MonthFromTime t := by omega
  unfold MakeDay
  simp only [h1, h2, add_zero]
  unfold DateFromTime DayWithinYear InLeapYear
  ring

theorem LocalTime_UTC (tza t : Int) : LocalTime tza (UTC tza t) = t := by
  unfold LocalTime UTC
  ring

theorem Day_LocalTime_setDate (tza d dt : Int) :
    Day (LocalTime tza (setDate tza d dt))
      = Day (LocalTime tza d) - DateFromTime (LocalTime tza d) + dt := by
  have hb := TimeWithinDay_bounds (LocalTime tza d)
  unfold setDate
  simp only [LocalTime_UTC]
  rw [Day_MakeDate _ _ hb.1 hb.2]
  exact MakeDay_of_time _ _

theorem Day_LocalTime_weekStartSetDate (tza d : Int) :
    Day (LocalTime tza (weekStartSetDate tza d))
      = Day (LocalTime tza d) - (getDay tza d + 6) % 7 := by
  have hw := WeekDay_bounds (LocalTime tza d)
  unfold weekStartSetDate
  rw [Day_LocalTime_setDate]
  unfold getDate getDay at *
  split_ifs <;> omega

theorem toISODate_congr (t u : Int) (h : Day t = Day u) : toISODate t = toISODate u := by
  unfold toISODate DateFromTime MonthFromTime InLeapYear DayWithinYear YearFromTime
  rw [h]

theorem getWeekStart_eq (tza date : Int) :
    getWeekStart tza date = toISODate (setHours tza (weekStartSetDate tza date) 0 0 0 0) := rfl

/-- The instant that `getWeekStart` serialises: local midnight of the Monday. -/
theorem setHours_weekStartSetDate (tza d : Int) :
    setHours tza (weekStartSetDate tza d) 0 0 0 0
      = mondayOnOrBefore (Day (LocalTime tza d)) * msPerDay - tza := by
  unfold setHours
  simp only [Day_LocalTime_weekStartSetDate, UTC, MakeDate, MakeTime, mondayOnOrBefore, getDay,
    WeekDay]
  ring

theorem Day_dateOfISODate_toISODate (t : Int) : Day (dateOfISODate (toISODate t)) = Day t := by
  unfold dateOfISODate toISODate
  simp only [add_sub_cancel_right]
  rw [Day_MakeDate _ _ (le_refl 0) (by decide), MakeDay_of_time]
  ring

theorem weekDay_toISODate (t : Int) : (toISODate t).weekDay = WeekDay t := by
  unfold IsoDate.weekDay WeekDay
  rw [Day_dateOfISODate_toISODate]

/-- On a server east of Greenwich the date returned is a Sunday. -/
theorem getWeekStart_weekDay_east (tza date : Int) (h0 : 0 < tza) (h1 : tza ≤ msPerDay) :
    (getWeekStart tza date).weekDay = 0 := by
  rw [getWeekStart_eq, weekDay_toISODate, setHours_weekStartSetDate]
  unfold WeekDay Day mondayOnOrBefore msPerDay at *
  omega

/-- On a server whose local time is UTC the computation is idempotent. -/
theorem getWeekStartOfString_getWeekStart_utc (date : Int) :
    getWeekStartOfString 0 (getWeekStart 0 date) = getWeekStart 0 date := by
  unfold getWeekStartOfString
  rw [getWeekStart_eq, getWeekStart_eq]
  apply toISODate_congr
  rw [setHours_weekStartSetDate, setHours_weekStartSetDate]
  simp only [LocalTime, add_zero, sub_zero]
  rw [Day_dateOfISODate_toISODate]
  unfold Day mondayOnOrBefore msPerDay
  omega

/-! ### Week start: properties -/

/-- C4, on a server one hour east of Greenwich: for Wednesday 2025-06-04 12:00 UTC
(13:00 local time) `getWeekStart` returns 2025-06-01, which is a Sunday. -/
theorem getWeekStart_sunday_east_of_greenwich :
    toISODate (LocalTime 3600000 1749038400000) = ⟨2025, 6, 4⟩ ∧
    getWeekStart 3600000 1749038400000 = ⟨2025, 6, 1⟩ ∧
    (getWeekStart 3600000 1749038400000).weekDay = 0 := by
  decide

/-- C6. In every time zone and for every date `d`, with `day` its day of the week,
setting the day of the month to `dayOfMonth - day + (day == 0 ? -6 : 1)` gives the
calendar day `d` minus `(day + 6) mod 7` days, which is the latest Monday on or
before `d`, whatever the sign of the value set and the month the result falls in. -/
theorem weekStartSetDate_is_mondayOnOrBefore (tza d : Int) :
    Day (LocalTime tza (weekStartSetDate tza d))
        = Day (LocalTime tza d) - (getDay tza d + 6) % 7 ∧
    Day (LocalTime tza (weekStartSetDate tza d)) = mondayOnOrBefore (Day (LocalTime tza d)) ∧
    WeekDay (LocalTime tza (weekStartSetDate tza d)) = 1 ∧
    Day (LocalTime tza (weekStartSetDate tza d)) ≤ Day (LocalTime tza d) ∧
    (∀ m : Int, m ≤ Day (LocalTime tza d) → (m + 4) % 7 = 1 →
      m ≤ Day (LocalTime tza (weekStartSetDate tza d))) ∧
    toISODate (LocalTime tza (weekStartSetDate tza d))
        = toISODate (MakeDate (Day (LocalTime tza d) - (getDay tza d + 6) % 7) 0) := by
  have h := Day_LocalTime_weekStartSetDate tza d
  have hw := WeekDay_bounds (LocalTime tza d)
  refine ⟨h, ?_, ?_, ?_, ?_, ?_⟩
  · rw [h]; unfold mondayOnOrBefore getDay WeekDay; rfl
  · unfold WeekDay at *; rw [h]; unfold getDay WeekDay; omega
  · rw [h]; unfold getDay WeekDay; omega
  · intro m hm hmon
    rw [h]; unfold getDay WeekDay; omega
  · apply toISODate_congr
    rw [h, Day_MakeDate _ _ (le_refl 0) (by decide)]

/-- The example of C6: for Sunday 2025-06-01 the value set is `1 - 0 - 6 = -5`, and the
date produced is 2025-05-26. -/
theorem weekStartSetDate_is_mondayOnOrBefore_witness :
    toISODate (LocalTime 0 (dateOfISODate ⟨2025, 6, 1⟩)) = ⟨2025, 6, 1⟩ ∧
    getDay 0 (dateOfISODate ⟨2025, 6, 1⟩) = 0 ∧
    getDate 0 (dateOfISODate ⟨2025, 6, 1⟩) - getDay 0 (dateOfISODate ⟨2025, 6, 1⟩) + (-6) = -5 ∧
    toISODate (LocalTime 0 (weekStartSetDate 0 (dateOfISODate ⟨2025, 6, 1⟩)))
      = ⟨2025, 5, 26⟩ := by
  refine ⟨by decide, by decide, by decide, ?_⟩
  rw [(weekStartSetDate_is_mondayOnOrBefore 0 (dateOfISODate ⟨2025, 6, 1⟩)).2.2.2.2.2]
  decide

/-! ### Weekly aggregator: lemmas -/

theorem coalesceZero_sqlSum (l : List ℚ) : coalesceZero (sqlSum l) = l.sum := by
  induction l with
  | nil => rfl
  | cons x rest ih =>
    cases rest with
    | nil => simp [sqlSum, coalesceZero]
    | cons y rest' =>
      simp only [sqlSum, coalesceZero, Option.getD, List.sum_cons] at ih ⊢
      rw [ih]

theorem orZero_eq (x : ℚ) : orZero x = x := by
  unfold orZero
  split_ifs with h
  · exact h.symm
  · rfl

theorem weeklyTotalSeconds_eq_sum (db : Db) (userId : Int) (classId : Option Int)
    (weekStart : String) :
    weeklyTotalSeconds db userId classId weekStart
      = ((db.study_sessions.filter (sessionMatches userId classId weekStart)).map
          StudySession.seconds).sum := by
  unfold weeklyTotalSeconds selectWeeklyTotal
  rw [orZero_eq, coalesceZero_sqlSum]

/-- C9. A record-session request whose `seconds` is negative is answered with 400
without any access to the store, which is left as it was; a request with
`seconds = 0` for a class the user owns (class ids are never 0) is answered,
when the store does not fail, with 201 and its session is appended. -/
theorem recordSession_validates_seconds (tza now : Int) (faults : StoreFaults) (db : Db)
    (userId : Int) (body : RecordBody) :
    (∀ s : ℚ, body.seconds = some s → s < 0 →
      recordSession tza now faults db userId body
        = { reply := Reply.error 400 "classId and seconds (>= 0) are required"
            db := db
            calls := [] }) ∧
    (∀ c : Int, body.seconds = some 0 → body.classId = some c → c ≠ 0 →
      (selectClass db c userId).isSome = true → faults = noFaults →
      (recordSession tza now faults db userId body).reply
          = Reply.created
              { id := db.sessionSeq + 1, user_id := userId, class_id := c, seconds := 0,
                week_start := weekOrDefault tza now body.weekStart } ∧
        (recordSession tza now faults db userId body).db.study_sessions
          = db.study_sessions ++
              [{ id := db.sessionSeq + 1, user_id := userId, class_id := c, seconds := 0,
                 week_start := weekOrDefault tza now body.weekStart, created_at := now }]) := by
  constructor
  · intro s hs hneg
    have hv : recordInvalid body = true := by
      simp [recordInvalid, hs, hneg]
    simp [recordSession, hv]
  · intro c hs hc hc0 hown hf
    subst hf
    have hv : recordInvalid body = false := by
      simp [recordInvalid, hs, hc, hc0]
    obtain ⟨row, hrow⟩ := Option.isSome_iff_exists.mp hown
    simp [recordSession, hv, hs, hc, hrow, noFaults]

/-- Witness of C9: user 1 reports -1 s, then 0 s, for the class 5 they own. -/
theorem recordSession_validates_seconds_witness :
    recordSession 0 1749038400000 noFaults sampleDb 1
        { classId := some 5, seconds := some (-1), weekStart := none }
      = { reply := Reply.error 400 "classId and seconds (>= 0) are required"
          db := sampleDb
          calls := [] } ∧
    (recordSession 0 1749038400000 noFaults sampleDb 1
        { classId := some 5, seconds := some 0, weekStart := none }).reply
      = Reply.created
          { id := sampleDb.sessionSeq + 1, user_id := 1, class_id := 5, seconds := 0,
            week_start := weekOrDefault 0 1749038400000 none } :=
  ⟨(recordSession_validates_seconds 0 1749038400000 noFaults sampleDb 1
      { classId := some 5, seconds := some (-1), weekStart := none }).1 (-1) rfl (by norm_num),
   ((recordSession_validates_seconds 0 1749038400000 noFaults sampleDb 1
      { classId := some 5, seconds := some 0, weekStart := none }).2 5 rfl rfl (by decide)
      (by decide) rfl).1⟩

/-- C10 as stated fails: user 1 names class 7, which belongs to user 2, and reports
-1 s; the reply is the 400 of the validation, not 404. -/
theorem recordSession_unowned_class_400 :
    selectClass sampleDb 7 1 = none ∧
    (recordSession 0 1749038400000 noFaults sampleDb 1
        { classId := some 7, seconds := some (-1), weekStart := none }).reply
      = Reply.error 400 "classId and seconds (>= 0) are required" ∧
    (recordSession 0 1749038400000 noFaults sampleDb 1
        { classId := some 7, seconds := some (-1), weekStart := none }).reply
      ≠ Reply.error 404 "Class not found" := by
  decide

/-- C10, amended. A record-session request whose `classId` does not name a class of
the authenticated user appends no session; when it passes the validation and
the ownership lookup does not fail, the reply is 404 "Class not found". -/
theorem recordSession_unowned_class (tza now : Int) (faults : StoreFaults) (db : Db)
    (userId : Int) (body : RecordBody)
    (hclass : ∀ c : Int, body.classId = some c → selectClass db c userId = none) :
    (recordSession tza now faults db userId body).db = db ∧
    (recordInvalid body = false → faults.get = false →
      (recordSession tza now faults db userId body).reply
        = Reply.error 404 "Class not found") := by
  unfold recordSession
  by_cases hv : recordInvalid body = true
  · simp [hv]
  · cases hc : body.classId with
    | none => exact absurd (by simp [recordInvalid, hc]) hv
    | some c =>
      cases hs : body.seconds with
      | none => exact absurd (by simp [recordInvalid, hs]) hv
      | some s =>
        have hsel := hclass c hc
        by_cases hg : faults.get = true
        · simp [hv, hc, hs, hg]
        · simp [hv, hc, hs, hg, hsel]

/-- Witness of C10: user 1 reports 30 s for class 7, which belongs to user 2. -/
theorem recordSession_unowned_class_witness :
    (recordSession 0 1749038400000 noFaults sampleDb 1
        { classId := some 7, seconds := some 30, weekStart := none }).db = sampleDb ∧
    (recordSession 0 1749038400000 noFaults sampleDb 1
        { classId := some 7, seconds := some 30, weekStart := none }).reply
      = Reply.error 404 "Class not found" :=
  ⟨(recordSession_unowned_class 0 1749038400000 noFaults sampleDb 1
      { classId := some 7, seconds := some 30, weekStart := none }
      (by intro c hc; cases hc; decide)).1,
   (recordSession_unowned_class 0 1749038400000 noFaults sampleDb 1
      { classId := some 7, seconds := some 30, weekStart := none }
      (by intro c hc; cases hc; decide)).2 (by decide) rfl⟩

theorem mem_rankRows (index : Nat) (rows : List LeaderboardRow) (e : LeaderboardEntry)
    (he : e ∈ rankRows index rows) :
    ∃ row ∈ rows, e.userId = row.user_id ∧ e.username = row.username ∧
      e.totalSeconds = row.total_seconds := by
  induction rows generalizing index with
  | nil => simp [rankRows] at he
  | cons row rest ih =>
    simp only [rankRows, List.mem_cons] at he
    rcases he with he | he
    · exact ⟨row, List.mem_cons_self _ _, by simp [he, orZero_eq]⟩
    · obtain ⟨r, hr, h⟩ := ih _ he
      exact ⟨r, List.mem_cons_of_mem _ hr, h⟩

/-- The rows of the leaderboard query: at most 100, in non-increasing order of total,
each the row of a user with the sum of that user's seconds, which is positive. -/
theorem selectLeaderboard_spec (db : Db) (classId : Option Int) (weekStart : String) :
    (selectLeaderboard db classId weekStart).length ≤ 100 ∧
    (selectLeaderboard db classId weekStart).Pairwise
      (fun a b => b.total_seconds ≤ a.total_seconds) ∧
    ∀ row ∈ selectLeaderboard db classId weekStart,
      (∃ u ∈ db.users, row.user_id = u.id ∧ row.username = u.username) ∧
      row.total_seconds = weeklyTotalSeconds db row.user_id classId weekStart ∧
      0 < row.total_seconds := by
  unfold selectLeaderboard
  simp only []
  refine ⟨?_, ?_, ?_⟩
  · exact (List.length_take_le _ _)
  · haveI : IsTotal LeaderboardRow (fun a b => b.total_seconds ≤ a.total_seconds) :=
      ⟨fun a b => le_total b.total_seconds a.total_seconds⟩
    haveI : IsTrans LeaderboardRow (fun a b => b.total_seconds ≤ a.total_seconds) :=
      ⟨fun a b c hab hbc => le_trans hbc hab⟩
    exact List.Pairwise.sublist (List.take_sublist _ _)
      (List.sorted_insertionSort (fun a b : LeaderboardRow => b.total_seconds ≤ a.total_seconds) _)
  · intro row hrow
    have h1 := List.mem_of_mem_take hrow
    have h2 := (List.perm_insertionSort _ _).mem_iff.mp h1
    rw [List.mem_filter, List.mem_map] at h2
    obtain ⟨⟨u, hu, hrowu⟩, hpos⟩ := h2
    subst hrowu
    refine ⟨⟨u, hu, rfl, rfl⟩, ?_, by simpa using hpos⟩
    simp only [weeklyTotalSeconds, selectWeeklyTotal, orZero_eq]

theorem sum_sessionMatches (db : Db) (userId : Int) (classId : Option Int) (weekStart : String) :
    weeklyTotalSeconds db userId classId weekStart
      = ((db.study_sessions.filter (fun s =>
            s.user_id = userId ∧ some s.class_id = classId ∧ s.week_start = weekStart)).map
          StudySession.seconds).sum := by
  rw [weeklyTotalSeconds_eq_sum]
  congr 2
  apply List.filter_congr
  intro s _
  rw [Bool.eq_iff_iff]
  simp [sessionMatches, and_assoc]

/-! ### Leaderboard: properties -/

/-- C14. When the store answers, no entry of the leaderboard of a class and week has
`totalSeconds = 0`: every entry is a user of the `users` table whose seconds for
the class and week sum to the entry's `totalSeconds`, and that sum is strictly
positive. -/
theorem leaderboard_totals_positive (tza now : Int) (faults : StoreFaults) (db : Db)
    (classId : Option Int) (weekStart : Option String) (hstore : faults.all = false) :
    (leaderboard tza now faults db classId weekStart).reply
      = Reply.leaderboard classId (weekOrDefault tza now weekStart)
          (leaderboardEntries db classId (weekOrDefault tza now weekStart)) ∧
    ∀ e ∈ leaderboardEntries db classId (weekOrDefault tza now weekStart),
      e.totalSeconds ≠ 0 ∧
      (∃ u ∈ db.users, u.id = e.userId) ∧
      0 < ((db.study_sessions.filter (fun s =>
              s.user_id = e.userId ∧ some s.class_id = classId ∧
                s.week_start = weekOrDefault tza now weekStart)).map
            StudySession.seconds).sum := by
  constructor
  · simp [leaderboard, hstore]
  · intro e he
    obtain ⟨row, hrow, hid, _, htot⟩ := mem_rankRows _ _ _ he
    obtain ⟨⟨u, hu, hu1, _⟩, hsum, hpos⟩ :=
      (selectLeaderboard_spec db classId (weekOrDefault tza now weekStart)).2.2 row hrow
    refine ⟨?_, ⟨u, hu, by rw [hid, hu1]⟩, ?_⟩
    · rw [htot]; exact ne_of_gt hpos
    · rw [← sum_sessionMatches, hid, ← hsum]; exact hpos

/-- Witness of C14: the leaderboard of class 5 for the week "2025-06-02" has positive
totals only. -/
theorem leaderboard_totals_positive_witness :
    noFaults.all = false ∧
    ∀ e ∈ leaderboardEntries leaderboardDb (some 5)
        (weekOrDefault 0 1749038400000 (some "2025-06-02")),
      e.totalSeconds ≠ 0 :=
  ⟨rfl, fun e he =>
    ((leaderboard_totals_positive 0 1749038400000 noFaults leaderboardDb (some 5)
      (some "2025-06-02") rfl).2 e he).1⟩

theorem mapGet_mapSet (m : List (String × Timer)) (k k' : String) (v : Timer) :
    mapGet (mapSet m k v) k' = if k' = k then some v else mapGet m k' := by
  by_cases h : k' = k
  · rw [if_pos h, h, mapGet_mapSet_self]
  · rw [if_neg h, mapGet_mapSet_other _ _ _ _ h]

/-- A timer found after an event is the timer found before it, or a freshly initialised
one, or the timer found before with the effect of Start/Resume, of Stop (also the
automatic pause), of Save or of Discard. -/
theorem getTimer_applyEvent (app : App) (e : TimerEvent) (id : String) (t' : Timer)
    (h : getTimer (applyEvent app e) id = some t') :
    getTimer app id = some t' ∨
    (∃ cls : ClassEntry, t' =
      { id := cls.id, name := cls.name, savedSeconds := 0, sessionSeconds := 0,
        running := false, startTimestamp := none, state := TimerState.idle }) ∨
    (∃ t : Timer, getTimer app id = some t ∧ ∃ now : Int, eventClock e = some now ∧
      (t' = { t with running := true, startTimestamp := some now,
                     state := TimerState.running } ∨
       t' = { t with
              sessionSeconds := t.sessionSeconds + elapsedSeconds now t.startTimestamp
              startTimestamp := none
              running := false
              state := TimerState.stopped })) ∨
    (∃ t : Timer, getTimer app id = some t ∧
      (t' = { t with
              savedSeconds := t.savedSeconds + t.sessionSeconds
              sessionSeconds := 0
              startTimestamp := none
              running := false
              state := TimerState.idle } ∨
       t' = { t with
              sessionSeconds := 0
              startTimestamp := none
              running := false
              state := TimerState.idle })) := by
  cases e with
  | addClass cls =>
    simp only [applyEvent, initializeTimer, getTimer, mapGet_mapSet] at h
    by_cases hid : id = cls.id
    · rw [if_pos hid] at h
      exact Or.inr (Or.inl ⟨cls, (Option.some.inj h).symm⟩)
    · rw [if_neg hid] at h
      exact Or.inl h
  | start classId now =>
    simp only [applyEvent, timerStart] at h
    cases hg : getTimer app classId with
    | none => rw [hg] at h; exact Or.inl h
    | some t =>
      rw [hg] at h
      simp only [getTimer, mapGet_mapSet] at h
      by_cases hid : id = classId
      · rw [if_pos hid] at h
        subst hid
        exact Or.inr (Or.inr (Or.inl ⟨t, hg, now, rfl, Or.inl (Option.some.inj h).symm⟩))
      · rw [if_neg hid] at h
        exact Or.inl h
  | stop classId now =>
    simp only [applyEvent, timerStop] at h
    cases hg : getTimer app classId with
    | none => rw [hg] at h; exact Or.inl h
    | some t =>
      rw [hg] at h
      simp only [getTimer, mapGet_mapSet] at h
      by_cases hid : id = classId
      · rw [if_pos hid] at h
        subst hid
        exact Or.inr (Or.inr (Or.inl ⟨t, hg, now, rfl, Or.inr (Option.some.inj h).symm⟩))
      · rw [if_neg hid] at h
        exact Or.inl h
  | resume classId now =>
    simp only [applyEvent, timerResume] at h
    cases hg : getTimer app classId with
    | none => rw [hg] at h; exact Or.inl h
    | some t =>
      rw [hg] at h
      simp only [getTimer, mapGet_mapSet] at h
      by_cases hid : id = classId
      · rw [if_pos hid] at h
        subst hid
        exact Or.inr (Or.inr (Or.inl ⟨t, hg, now, rfl, Or.inl (Option.some.inj h).symm⟩))
      · rw [if_neg hid] at h
        exact Or.inl h
  | save classId =>
    simp only [applyEvent, timerSave] at h
    cases hg : getTimer app classId with
    | none => rw [hg] at h; exact Or.inl h
    | some t =>
      rw [hg] at h
      simp only [getTimer, mapGet_mapSet] at h
      by_cases hid : id = classId
      · rw [if_pos hid] at h
        subst hid
        exact Or.inr (Or.inr (Or.inr ⟨t, hg, Or.inl (Option.some.inj h).symm⟩))
      · rw [if_neg hid] at h
        exact Or.inl h
  | discard classId =>
    simp only [applyEvent, timerDiscard] at h
    cases hg : getTimer app classId with
    | none => rw [hg] at h; exact Or.inl h
    | some t =>
      rw [hg] at h
      simp only [getTimer, mapGet_mapSet] at h
      by_cases hid : id = classId
      · rw [if_pos hid] at h
        subst hid
        exact Or.inr (Or.inr (Or.inr ⟨t, hg, Or.inr (Option.some.inj h).symm⟩))
      · rw [if_neg hid] at h
        exact Or.inl h
  | setView view classId now =>
    simp only [applyEvent, setView, getTimer] at h
    by_cases hview : (decide (app.currentView = "class-detail") && idTruthy app.currentClassId)
        = true
    · rw [if_pos hview] at h
      cases hcur : app.currentClassId with
      | none => simp only [hcur] at h; exact Or.inl h
      | some cur =>
        simp only [hcur] at h
        cases hg : mapGet app.classTimers cur with
        | none => simp only [hg] at h; exact Or.inl h
        | some t =>
          simp only [hg] at h
          by_cases hrun : t.running = true
          · simp only [hrun, if_true, mapGet_mapSet] at h
            by_cases hid : id = cur
            · rw [if_pos hid] at h
              subst hid
              exact Or.inr (Or.inr (Or.inl ⟨t, hg, now, rfl, Or.inr (Option.some.inj h).symm⟩))
            · rw [if_neg hid] at h
              exact Or.inl h
          · simp only [hrun, Bool.false_eq_true, if_false] at h
            exact Or.inl h
    · rw [if_neg hview] at h
      exact Or.inl h

theorem wellFormed_applyEvent (app : App) (e : TimerEvent)
    (hall : ∀ id t, getTimer app id = some t → t.WellFormed) :
    ∀ id t, getTimer (applyEvent app e) id = some t → t.WellFormed := by
  intro id t' h
  rcases getTimer_applyEvent app e id t' h with h0 | ⟨cls, h1⟩ | ⟨t, ht, now, _, h2 | h2⟩ |
    ⟨t, ht, h3 | h3⟩
  · exact hall id t' h0
  · subst h1; simp [Timer.WellFormed]
  · subst h2; simp [Timer.WellFormed]
  · subst h2; simp [Timer.WellFormed]
  · subst h3; simp [Timer.WellFormed]
  · subst h3; simp [Timer.WellFormed]

theorem wellFormed_runEvents (events : List TimerEvent) (app : App)
    (hall : ∀ id t, getTimer app id = some t → t.WellFormed) :
    ∀ id t, getTimer (runEvents app events) id = some t → t.WellFormed := by
  induction events generalizing app with
  | nil => exact hall
  | cons e rest ih => exact ih (applyEvent app e) (wellFormed_applyEvent app e hall)

/-- Every timer of a state reached from the initial one is well formed. -/
theorem wellFormed_reachable (events : List TimerEvent) (id : String) (t : Timer)
    (h : getTimer (runEvents initialApp events) id = some t) : t.WellFormed :=
  wellFormed_runEvents events initialApp
    (fun id t h => by simp [getTimer, initialApp, mapGet] at h) id t h

theorem elapsedSeconds_nonneg (now : Int) (ts : Option Int) (h : tsToNumber ts ≤ now) :
    0 ≤ elapsedSeconds now ts := by
  unfold elapsedSeconds
  apply div_nonneg
  · exact_mod_cast sub_nonneg.mpr h
  · norm_num

theorem clock_applyEvent (app : App) (e : TimerEvent) (last next : Int) (h0 : 0 ≤ last)
    (hle : last ≤ next) (hclk : ∀ now, eventClock e = some now → now = next)
    (hinv : ∀ id t, getTimer app id = some t →
      0 ≤ t.sessionSeconds ∧ ∀ s, t.startTimestamp = some s → s ≤ last) :
    ∀ id t, getTimer (applyEvent app e) id = some t →
      0 ≤ t.sessionSeconds ∧ ∀ s, t.startTimestamp = some s → s ≤ next := by
  intro id t' h
  rcases getTimer_applyEvent app e id t' h with h0' | ⟨cls, h1⟩ | ⟨t, ht, now, hnow, h2 | h2⟩ |
    ⟨t, ht, h3 | h3⟩
  · exact ⟨(hinv id t' h0').1, fun s hs => le_trans ((hinv id t' h0').2 s hs) hle⟩
  · subst h1; simp
  · subst h2
    have := hclk now hnow
    subst this
    exact ⟨(hinv id t ht).1, fun s hs => by simp at hs; omega⟩
  · subst h2
    have := hclk now hnow
    subst this
    refine ⟨?_, fun s hs => by simp at hs⟩
    apply add_nonneg (hinv id t ht).1
    apply elapsedSeconds_nonneg
    cases hts : t.startTimestamp with
    | none => simp only [tsToNumber]; omega
    | some s =>
      have := (hinv id t ht).2 s hts
      simp only [tsToNumber]; omega
  · subst h3; simp
  · subst h3; simp

theorem clock_runEvents (events : List TimerEvent) (app : App) (last : Int) (h0 : 0 ≤ last)
    (hinv : ∀ id t, getTimer app id = some t →
      0 ≤ t.sessionSeconds ∧ ∀ s, t.startTimestamp = some s → s ≤ last)
    (hclock : clockOrdered last events = true) :
    ∀ id t, getTimer (runEvents app events) id = some t →
      0 ≤ t.sessionSeconds ∧ ∀ s, t.startTimestamp = some s → s ≤ lastClock last events := by
  induction events generalizing app last with
  | nil => exact hinv
  | cons e rest ih =>
    cases hclk : eventClock e with
    | none =>
      simp only [clockOrdered, hclk] at hclock
      simp only [lastClock, hclk, runEvents]
      exact ih (applyEvent app e) last h0
        (clock_applyEvent app e last last h0 (le_refl _) (fun now hn => by simp [hclk] at hn)
          hinv) hclock
    | some now =>
      simp only [clockOrdered, hclk, Bool.and_eq_true, decide_eq_true_eq] at hclock
      simp only [lastClock, hclk, runEvents]
      exact ih (applyEvent app e) now (le_trans h0 hclock.1)
        (clock_applyEvent app e last now h0 hclock.1
          (fun n hn => by rw [hclk] at hn; exact (Option.some.inj hn).symm) hinv) hclock.2

/-! ### Timer engine: properties of the reachable states -/

/-- C17 as stated fails: on a freshly initialised, idle timer `timerResume` at clock
reading 5000 leaves the timer running with `startTimestamp = 5000`, and `timerStop`
leaves it in state "stopped". -/
theorem idle_timer_resume_and_stop_change_state :
    getTimer (initializeTimer initialApp ⟨"math", "Math"⟩) "math"
      = some { id := "math", name := "Math", savedSeconds := 0, sessionSeconds := 0
               running := false, startTimestamp := none, state := TimerState.idle } ∧
    getTimer (timerResume (initializeTimer initialApp ⟨"math", "Math"⟩) "math" 5000) "math"
      = some { id := "math", name := "Math", savedSeconds := 0, sessionSeconds := 0
               running := true, startTimestamp := some 5000, state := TimerState.running } ∧
    (getTimer (timerStop (initializeTimer initialApp ⟨"math", "Math"⟩) "math" 5000)
        "math").map Timer.state = some TimerState.stopped := by
  decide

/-- C17, amended. For an idle timer of a state reached from the initial one,
`timerSave` and `timerDiscard` leave the timer as it is. `timerResume` starts it:
state "running" and `startTimestamp = now`, the seconds unchanged. `timerStop`
puts it in state "stopped" with `startTimestamp = null` and `savedSeconds`
unchanged. -/
theorem idle_timer_actions (events : List TimerEvent) (id : String) (t : Timer) (now : Int)
    (ht : getTimer (runEvents initialApp events) id = some t)
    (hidle : t.state = TimerState.idle) :
    getTimer (timerSave (runEvents initialApp events) id) id = some t ∧
    getTimer (timerDiscard (runEvents initialApp events) id) id = some t ∧
    getTimer (timerResume (runEvents initialApp events) id now) id
      = some { t with running := true, startTimestamp := some now,
                      state := TimerState.running } ∧
    (∃ t', getTimer (timerStop (runEvents initialApp events) id now) id = some t' ∧
      t'.state = TimerState.stopped ∧ t'.startTimestamp = none ∧
      t'.savedSeconds = t.savedSeconds) := by
  obtain ⟨hts, hrun, hsess⟩ := wellFormed_reachable events id t ht
  have h1 : t.sessionSeconds = 0 := hsess hidle
  have h2 : t.startTimestamp = none := by
    by_contra hne
    have := hts.mp hne
    rw [hidle] at this
    exact absurd this (by decide)
  have h3 : t.running = false := by
    cases hr : t.running with
    | false => rfl
    | true =>
      have := hrun.mp hr
      rw [hidle] at this
      exact absurd this (by decide)
  have hsame : ({ t with
      savedSeconds := t.savedSeconds + t.sessionSeconds
      sessionSeconds := 0
      startTimestamp := none
      running := false
      state := TimerState.idle } : Timer) = t := by
    cases t
    simp_all
  have hsame' : ({ t with
      sessionSeconds := 0
      startTimestamp := none
      running := false
      state := TimerState.idle } : Timer) = t := by
    cases t
    simp_all
  simp only [getTimer] at ht
  refine ⟨?_, ?_, ?_, ?_⟩
  · simp only [timerSave, getTimer, ht, mapGet_mapSet_self, hsame]
  · simp only [timerDiscard, getTimer, ht, mapGet_mapSet_self, hsame']
  · simp only [timerResume, getTimer, ht, mapGet_mapSet_self]
  · refine ⟨{ t with
        sessionSeconds := t.sessionSeconds + elapsedSeconds now t.startTimestamp
        startTimestamp := none
        running := false
        state := TimerState.stopped }, ?_, rfl, rfl, rfl⟩
    simp only [timerStop, getTimer, ht, mapGet_mapSet_self]

/-- Witness of C17: the idle timer of a class just added is left as it is by
`timerSave` and by `timerDiscard`. -/
theorem idle_timer_actions_witness :
    getTimer (timerSave (runEvents initialApp [TimerEvent.addClass ⟨"math", "Math"⟩]) "math")
        "math"
      = some { id := "math", name := "Math", savedSeconds := 0, sessionSeconds := 0
               running := false, startTimestamp := none, state := TimerState.idle } ∧
    getTimer (timerDiscard (runEvents initialApp [TimerEvent.addClass ⟨"math", "Math"⟩]) "math")
        "math"
      = some { id := "math", name := "Math", savedSeconds := 0, sessionSeconds := 0
               running := false, startTimestamp := none, state := TimerState.idle } :=
  ⟨(idle_timer_actions [TimerEvent.addClass ⟨"math", "Math"⟩] "math"
      { id := "math", name := "Math", savedSeconds := 0, sessionSeconds := 0
        running := false, startTimestamp := none, state := TimerState.idle }
      5000 (by decide) rfl).1,
   (idle_timer_actions [TimerEvent.addClass ⟨"math", "Math"⟩] "math"
      { id := "math", name := "Math", savedSeconds := 0, sessionSeconds := 0
        running := false, startTimestamp := none, state := TimerState.idle }
      5000 (by decide) rfl).2.1⟩

/-- C18. For a class id that has no timer, each of `timerStart`, `timerStop`,
`timerResume`, `timerSave` and `timerDiscard` returns with the whole state, the
timer map and every timer in it included, as it was. -/
theorem timer_actions_unknown_class (app : App) (classId : String) (now : Int)
    (h : getTimer app classId = none) :
    timerStart app classId now = app ∧
    timerStop app classId now = app ∧
    timerResume app classId now = app ∧
    timerSave app classId = app ∧
    timerDiscard app classId = app := by
  refine ⟨?_, ?_, ?_, ?_, ?_⟩
  · simp only [timerStart, h]
  · simp only [timerStop, h]
  · simp only [timerResume, h]
  · simp only [timerSave, h]
  · simp only [timerDiscard, h]

/-- Witness of C18: with a running timer for "math" and none for "ghost", stopping
"ghost" changes nothing. -/
theorem timer_actions_unknown_class_witness :
    getTimer
        (runEvents initialApp
          [TimerEvent.addClass ⟨"math", "Math"⟩, TimerEvent.start "math" 1000])
        "ghost" = none ∧
    timerStop
        (runEvents initialApp
          [TimerEvent.addClass ⟨"math", "Math"⟩, TimerEvent.start "math" 1000])
        "ghost" 4000
      = runEvents initialApp
          [TimerEvent.addClass ⟨"math", "Math"⟩, TimerEvent.start "math" 1000] :=
  ⟨by decide,
   (timer_actions_unknown_class
      (runEvents initialApp
        [TimerEvent.addClass ⟨"math", "Math"⟩, TimerEvent.start "math" 1000])
      "ghost" 4000 (by decide)).2.1⟩

/-- C19 as stated fails: a timer started at clock reading 10000 and stopped at clock
reading 4000 has `sessionSeconds = -6`, and the live query at 4000 on the running
timer returns -6; the elapsed term is not clamped. -/
theorem sessionSeconds_negative_when_clock_goes_back :
    (getTimer
        (runEvents initialApp
          [TimerEvent.addClass ⟨"math", "Math"⟩, TimerEvent.start "math" 10000,
           TimerEvent.stop "math" 4000])
        "math").map Timer.sessionSeconds = some (-6) ∧
    getLiveSessionSeconds
        (getTimer
          (runEvents initialApp
            [TimerEvent.addClass ⟨"math", "Math"⟩, TimerEvent.start "math" 10000])
          "math")
        4000 = -6 := by
  constructor
  · norm_num [runEvents, applyEvent, timerStop, timerStart, initializeTimer, initialApp,
      getTimer, mapSet, mapGet, elapsedSeconds, tsToNumber]
  · norm_num [runEvents, applyEvent, timerStart, initializeTimer, initialApp,
      getTimer, mapSet, mapGet, elapsedSeconds, tsToNumber, getLiveSessionSeconds, tsTruthy]

/-- C19, amended. In every state reached from the initial one by events whose clock
readings are not negative and never decrease, every timer has `sessionSeconds >= 0`,
and the live query at any later clock reading is `>= 0`. -/
theorem sessionSeconds_nonneg_ordered_clock (events : List TimerEvent) (id : String)
    (t : Timer) (hclock : clockOrdered 0 events = true)
    (ht : getTimer (runEvents initialApp events) id = some t) :
    0 ≤ t.sessionSeconds ∧
    ∀ now : Int, lastClock 0 events ≤ now → 0 ≤ getLiveSessionSeconds (some t) now := by
  have hinv := clock_runEvents events initialApp 0 (le_refl 0)
    (fun id t h => by simp [getTimer, initialApp, mapGet] at h) hclock id t ht
  refine ⟨hinv.1, ?_⟩
  intro now hnow
  unfold getLiveSessionSeconds
  simp only []
  split_ifs with hrun
  · apply add_nonneg hinv.1
    apply elapsedSeconds_nonneg
    cases hts : t.startTimestamp with
    | none => simp [hts, tsTruthy] at hrun
    | some s =>
      have := hinv.2 s hts
      simp only [tsToNumber]
      omega
  · exact hinv.1

/-- Witness of C19: a timer started at clock reading 1000, queried at 4000. -/
theorem sessionSeconds_nonneg_ordered_clock_witness :
    clockOrdered 0 [TimerEvent.addClass ⟨"math", "Math"⟩, TimerEvent.start "math" 1000]
      = true ∧
    0 ≤ getLiveSessionSeconds
      (some { id := "math", name := "Math", savedSeconds := 0, sessionSeconds := 0
              running := true, startTimestamp := some 1000, state := TimerState.running })
      4000 :=
  ⟨by decide,
   (sessionSeconds_nonneg_ordered_clock
      [TimerEvent.addClass ⟨"math", "Math"⟩, TimerEvent.start "math" 1000] "math"
      { id := "math", name := "Math", savedSeconds := 0, sessionSeconds := 0
        running := true, startTimestamp := some 1000, state := TimerState.running }
      (by decide) (by decide)).2 4000 (by decide)⟩

/-- C20. In every state reached from the initial one by adding classes, the five timer
actions and `setView` with its automatic pause, at any clock readings, every timer
has a non-null `startTimestamp` exactly when its state is "running". -/
theorem startTimestamp_set_iff_running (events : List TimerEvent) (id : String) (t : Timer)
    (ht : getTimer (runEvents initialApp events) id = some t) :
    t.startTimestamp ≠ none ↔ t.state = TimerState.running :=
  (wellFormed_reachable events id t ht).1

/-- Witness of C20: a timer started at 1000 and paused by leaving its detail view at
4000 has no `startTimestamp` and is not running. -/
theorem startTimestamp_set_iff_running_witness :
    (getTimer
        (runEvents initialApp
          [TimerEvent.addClass ⟨"math", "Math"⟩,
           TimerEvent.setView "class-detail" (some "math") 0,
           TimerEvent.start "math" 1000,
           TimerEvent.setView "home" none 4000])
        "math").map Timer.state = some TimerState.stopped ∧
    ((none : Option Int) ≠ none ↔ TimerState.stopped = TimerState.running) := by
  have hget : getTimer
      (runEvents initialApp
        [TimerEvent.addClass ⟨"math", "Math"⟩,
         TimerEvent.setView "class-detail" (some "math") 0,
         TimerEvent.start "math" 1000,
         TimerEvent.setView "home" none 4000])
      "math"
      = some { id := "math", name := "Math", savedSeconds := 0
               sessionSeconds := 0 + elapsedSeconds 4000 (some 1000)
               running := false, startTimestamp := none, state := TimerState.stopped } := by
    rfl
  exact ⟨by rw [hget]; rfl, startTimestamp_set_iff_running _ "math" _ hget⟩

/-! ### Timer engine: saved seconds, discard, automatic pause -/

/-- The `savedSeconds` of a timer after an event other than the initialisation of a
class: `timerSave` of that timer adds its `sessionSeconds`, every other event
leaves it unchanged. -/
theorem savedSeconds_applyEvent (app : App) (e : TimerEvent) (id : String) (t : Timer)
    (ht : getTimer app id = some t) (hadd : ∀ cls, e ≠ TimerEvent.addClass cls) :
    ∃ t', getTimer (applyEvent app e) id = some t' ∧
      t'.savedSeconds
        = if e = TimerEvent.save id then t.savedSeconds + t.sessionSeconds
          else t.savedSeconds := by
  cases e with
  | addClass cls => exact absurd rfl (hadd cls)
  | start classId now =>
    rw [if_neg (by simp)]
    simp only [applyEvent, timerStart]
    cases hg : getTimer app classId with
    | none => exact ⟨t, ht, rfl⟩
    | some t0 =>
      simp only [getTimer, mapGet_mapSet]
      by_cases hid : id = classId
      · subst hid
        rw [ht] at hg
        cases hg
        exact ⟨_, if_pos rfl, rfl⟩
      · exact ⟨t, by rw [if_neg hid]; exact ht, rfl⟩
  | stop classId now =>
    rw [if_neg (by simp)]
    simp only [applyEvent, timerStop]
    cases hg : getTimer app classId with
    | none => exact ⟨t, ht, rfl⟩
    | some t0 =>
      simp only [getTimer, mapGet_mapSet]
      by_cases hid : id = classId
      · subst hid
        rw [ht] at hg
        cases hg
        exact ⟨_, if_pos rfl, rfl⟩
      · exact ⟨t, by rw [if_neg hid]; exact ht, rfl⟩
  | resume classId now =>
    rw [if_neg (by simp)]
    simp only [applyEvent, timerResume]
    cases hg : getTimer app classId with
    | none => exact ⟨t, ht, rfl⟩
    | some t0 =>
      simp only [getTimer, mapGet_mapSet]
      by_cases hid : id = classId
      · subst hid
        rw [ht] at hg
        cases hg
        exact ⟨_, if_pos rfl, rfl⟩
      · exact ⟨t, by rw [if_neg hid]; exact ht, rfl⟩
  | save classId =>
    simp only [applyEvent, timerSave]
    by_cases hid : id = classId
    · subst hid
      rw [ht, if_pos rfl]
      simp only [getTimer, mapGet_mapSet]
      exact ⟨_, if_pos trivial, rfl⟩
    · rw [if_neg (by simpa using Ne.symm hid)]
      cases hg : getTimer app classId with
      | none => exact ⟨t, ht, rfl⟩
      | some t0 =>
        simp only [getTimer, mapGet_mapSet]
        exact ⟨t, by rw [if_neg hid]; exact ht, rfl⟩
  | discard classId =>
    rw [if_neg (by simp)]
    simp only [applyEvent, timerDiscard]
    cases hg : getTimer app classId with
    | none => exact ⟨t, ht, rfl⟩
    | some t0 =>
      simp only [getTimer, mapGet_mapSet]
      by_cases hid : id = classId
      · subst hid
        rw [ht] at hg
        cases hg
        exact ⟨_, if_pos rfl, rfl⟩
      · exact ⟨t, by rw [if_neg hid]; exact ht, rfl⟩
  | setView view classId now =>
    rw [if_neg (by simp)]
    simp only [applyEvent, setView, getTimer]
    by_cases hview : (decide (app.currentView = "class-detail") && idTruthy app.currentClassId)
        = true
    · rw [if_pos hview]
      cases hcur : app.currentClassId with
      | none => exact ⟨t, ht, rfl⟩
      | some cur =>
        simp only []
        cases hg : mapGet app.classTimers cur with
        | none => exact ⟨t, ht, rfl⟩
        | some t0 =>
          simp only []
          by_cases hrun : t0.running = true
          · simp only [hrun, if_true, mapGet_mapSet]
            by_cases hid : id = cur
            · subst hid
              simp only [getTimer] at ht
              rw [ht] at hg
              cases hg
              exact ⟨_, if_pos rfl, rfl⟩
            · exact ⟨t, by rw [if_neg hid]; exact ht, rfl⟩
          · simp only [hrun, Bool.false_eq_true, if_false]
            exact ⟨t, ht, rfl⟩
    · rw [if_neg hview]
      exact ⟨t, ht, rfl⟩

/-- C21 as stated fails: a timer started at clock reading 10000 and stopped at 4000
has `sessionSeconds = -6` and `savedSeconds = 0`; after `timerSave` its
`savedSeconds` is -6, less than before. -/
theorem savedSeconds_decreases_after_clock_goes_back :
    (getTimer
        (runEvents initialApp
          [TimerEvent.addClass ⟨"math", "Math"⟩, TimerEvent.start "math" 10000,
           TimerEvent.stop "math" 4000])
        "math").map Timer.savedSeconds = some 0 ∧
    (getTimer
        (timerSave
          (runEvents initialApp
            [TimerEvent.addClass ⟨"math", "Math"⟩, TimerEvent.start "math" 10000,
             TimerEvent.stop "math" 4000])
          "math")
        "math").map Timer.savedSeconds = some (-6) := by
  constructor
  · norm_num [runEvents, applyEvent, timerStop, timerStart, initializeTimer, initialApp,
      getTimer, mapSet, mapGet, elapsedSeconds, tsToNumber]
  · norm_num [runEvents, applyEvent, timerSave, timerStop, timerStart, initializeTimer,
      initialApp, getTimer, mapSet, mapGet, elapsedSeconds, tsToNumber]

/-- C21, amended. For every timer and every timer action (Start, Stop, Resume, Save,
Discard of any class id, or a change of view with its automatic pause),
`savedSeconds` differs afterwards only when the action is `timerSave` of that
timer, which adds `sessionSeconds`; so `savedSeconds` does not decrease when
`sessionSeconds >= 0`. -/
theorem savedSeconds_changes_only_on_save (app : App) (e : TimerEvent) (id : String)
    (t : Timer) (ht : getTimer app id = some t) (hadd : ∀ cls, e ≠ TimerEvent.addClass cls) :
    ∃ t', getTimer (applyEvent app e) id = some t' ∧
      (e ≠ TimerEvent.save id → t'.savedSeconds = t.savedSeconds) ∧
      (e = TimerEvent.save id → t'.savedSeconds = t.savedSeconds + t.sessionSeconds) ∧
      (0 ≤ t.sessionSeconds → t.savedSeconds ≤ t'.savedSeconds) := by
  obtain ⟨t', ht', hsaved⟩ := savedSeconds_applyEvent app e id t ht hadd
  refine ⟨t', ht', ?_, ?_, ?_⟩
  · intro hne
    rw [hsaved, if_neg hne]
  · intro heq
    rw [hsaved, if_pos heq]
  · intro hnonneg
    rw [hsaved]
    split_ifs
    · linarith
    · exact le_refl _

/-- Witness of C21: stopping a running timer leaves its `savedSeconds` at 0. -/
theorem savedSeconds_changes_only_on_save_witness :
    ∃ t', getTimer
        (applyEvent
          (runEvents initialApp
            [TimerEvent.addClass ⟨"math", "Math"⟩, TimerEvent.start "math" 1000])
          (TimerEvent.stop "math" 4000))
        "math" = some t' ∧
      t'.savedSeconds = 0 := by
  obtain ⟨t', ht', hne, _, _⟩ := savedSeconds_changes_only_on_save
    (runEvents initialApp [TimerEvent.addClass ⟨"math", "Math"⟩, TimerEvent.start "math" 1000])
    (TimerEvent.stop "math" 4000) "math"
    { id := "math", name := "Math", savedSeconds := 0, sessionSeconds := 0
      running := true, startTimestamp := some 1000, state := TimerState.running }
    (by decide) (by intro cls h; cases h)
  exact ⟨t', ht', hne (by decide)⟩

/-- C23. After `timerDiscard` the live query returns 0 at every clock reading, whatever
the timer was before (0 also when there is no timer), and `savedSeconds` of an
existing timer is unchanged. -/
theorem timerDiscard_then_live_query (app : App) (classId : String) (now : Int) :
    getLiveSessionSeconds (getTimer (timerDiscard app classId) classId) now = 0 ∧
    ∀ t : Timer, getTimer app classId = some t →
      ∃ t', getTimer (timerDiscard app classId) classId = some t' ∧
        t'.savedSeconds = t.savedSeconds ∧
        getLiveSessionSeconds (some t') now = 0 := by
  cases hg : getTimer app classId with
  | none =>
    refine ⟨?_, fun t ht => by cases ht⟩
    simp [timerDiscard, hg, getLiveSessionSeconds]
  | some t =>
    have hget : getTimer (timerDiscard app classId) classId
        = some { t with
            sessionSeconds := 0
            startTimestamp := none
            running := false
            state := TimerState.idle } := by
      have hg' := hg
      simp only [getTimer] at hg'
      simp only [timerDiscard, hg', getTimer, mapGet_mapSet_self]
    refine ⟨?_, ?_⟩
    · rw [hget]
      simp [getLiveSessionSeconds]
    · intro t0 ht0
      cases ht0
      exact ⟨_, hget, rfl, by simp [getLiveSessionSeconds]⟩

/-- Witness of C23: a timer running since clock reading 1000, discarded, queried at
4000. -/
theorem timerDiscard_then_live_query_witness :
    getLiveSessionSeconds
      (getTimer
        (timerDiscard
          (runEvents initialApp
            [TimerEvent.addClass ⟨"math", "Math"⟩, TimerEvent.start "math" 1000])
          "math")
        "math")
      4000 = 0 :=
  (timerDiscard_then_live_query
    (runEvents initialApp [TimerEvent.addClass ⟨"math", "Math"⟩, TimerEvent.start "math" 1000])
    "math" 4000).1

/-- The automatic pause of `setView` on a timer whose `running` flag is set: the
timer is left as `timerStop` leaves it. -/
theorem setView_pauses_running (app : App) (cur : String) (t : Timer) (view : String)
    (classId : Option String) (now : Int)
    (hview : app.currentView = "class-detail") (hcur : app.currentClassId = some cur)
    (hne : cur ≠ "") (ht : getTimer app cur = some t) (hrun : t.running = true) :
    getTimer (setView app view classId now) cur
        = some { t with
            sessionSeconds := t.sessionSeconds + elapsedSeconds now t.startTimestamp
            startTimestamp := none
            running := false
            state := TimerState.stopped } ∧
    getTimer (setView app view classId now) cur = getTimer (timerStop app cur now) cur := by
  have hstop : getTimer (timerStop app cur now) cur
      = some { t with
          sessionSeconds := t.sessionSeconds + elapsedSeconds now t.startTimestamp
          startTimestamp := none
          running := false
          state := TimerState.stopped } := by
    have ht' := ht
    simp only [getTimer] at ht'
    simp only [timerStop, ht', getTimer, mapGet_mapSet_self]
  have hset : getTimer (setView app view classId now) cur
      = some { t with
          sessionSeconds := t.sessionSeconds + elapsedSeconds now t.startTimestamp
          startTimestamp := none
          running := false
          state := TimerState.stopped } := by
    simp only [getTimer] at ht
    simp only [setView, getTimer, hview, hcur, idTruthy, ht, hrun, decide_True, Bool.true_and,
      bne_iff_ne, ne_eq, hne, not_false_eq_true, if_true, mapGet_mapSet_self]
  exact ⟨hset, by rw [hset, hstop]⟩

/-- C24. In a state reached from the initial one whose current view is the class
detail of a class (its id is not the empty string) whose timer is in state
"running", `setView` at clock reading `now` leaves that timer exactly as
`timerStop` at the same `now` does: `sessionSeconds` increased by
`(now - startTimestamp) / 1000`, `startTimestamp = null`, state "stopped",
`savedSeconds` unchanged. -/
theorem setView_eq_timerStop (events : List TimerEvent) (cur : String) (t : Timer)
    (view : String) (classId : Option String) (now : Int)
    (hview : (runEvents initialApp events).currentView = "class-detail")
    (hcur : (runEvents initialApp events).currentClassId = some cur)
    (hne : cur ≠ "")
    (ht : getTimer (runEvents initialApp events) cur = some t)
    (hstate : t.state = TimerState.running) :
    getTimer (setView (runEvents initialApp events) view classId now) cur
      = getTimer (timerStop (runEvents initialApp events) cur now) cur ∧
    ∃ (s : Int) (t' : Timer), t.startTimestamp = some s ∧
      getTimer (setView (runEvents initialApp events) view classId now) cur = some t' ∧
      t'.sessionSeconds = t.sessionSeconds + ((now - s : Int) : ℚ) / 1000 ∧
      t'.startTimestamp = none ∧
      t'.state = TimerState.stopped ∧
      t'.savedSeconds = t.savedSeconds := by
  obtain ⟨hts, hrun, _⟩ := wellFormed_reachable events cur t ht
  have hr : t.running = true := hrun.mpr hstate
  obtain ⟨hset, heq⟩ := setView_pauses_running _ cur t view classId now hview hcur hne ht hr
  refine ⟨heq, ?_⟩
  obtain ⟨s, hs⟩ := Option.ne_none_iff_exists'.mp (hts.mpr hstate)
  refine ⟨s, _, hs, hset, ?_, rfl, rfl, rfl⟩
  simp [elapsedSeconds, hs, tsToNumber]

/-- Witness of C24: the detail view of "math", its timer running since 1000, left at
4000. -/
theorem setView_eq_timerStop_witness :
    getTimer
        (setView
          (runEvents initialApp
            [TimerEvent.addClass ⟨"math", "Math"⟩,
             TimerEvent.setView "class-detail" (some "math") 0,
             TimerEvent.start "math" 1000])
          "home" none 4000)
        "math"
      = getTimer
        (timerStop
          (runEvents initialApp
            [TimerEvent.addClass ⟨"math", "Math"⟩,
             TimerEvent.setView "class-detail" (some "math") 0,
             TimerEvent.start "math" 1000])
          "math" 4000)
        "math" :=
  (setView_eq_timerStop
    [TimerEvent.addClass ⟨"math", "Math"⟩,
     TimerEvent.setView "class-detail" (some "math") 0,
     TimerEvent.start "math" 1000]
    "math"
    { id := "math", name := "Math", savedSeconds := 0, sessionSeconds := 0
      running := true, startTimestamp := some 1000, state := TimerState.running }
    "home" none 4000 (by decide) (by decide) (by decide) (by decide) rfl).1

/-- C25. Nothing in the engine keeps a single timer running: `timerStart` for two
different class ids that have timers, with no Stop or change of view in between,
leaves both timers in state "running". -/
theorem two_timers_running (app : App) (a b : String) (ta tb : Timer) (n1 n2 : Int)
    (ha : getTimer app a = some ta) (hb : getTimer app b = some tb) (hne : a ≠ b) :
    getTimer (timerStart (timerStart app a n1) b n2) a
      = some { ta with running := true, startTimestamp := some n1,
                       state := TimerState.running } ∧
    getTimer (timerStart (timerStart app a n1) b n2) b
      = some { tb with running := true, startTimestamp := some n2,
                       state := TimerState.running } := by
  simp only [getTimer] at ha hb
  have h1 : getTimer (timerStart app a n1) b = some tb := by
    simp only [timerStart, getTimer, ha, mapGet_mapSet, if_neg (Ne.symm hne), hb]
  have h1' := h1
  simp only [getTimer] at h1'
  constructor
  · simp only [timerStart, getTimer, ha, mapGet_mapSet, if_neg (Ne.symm hne), hb,
      if_neg hne, if_true]
  · simp only [timerStart, getTimer, ha, mapGet_mapSet, if_neg (Ne.symm hne), hb, if_true]

/-- Witness of C25: classes "math" and "physics" are added, then started at clock
readings 1000 and 2000; both timers are in state "running". -/
theorem two_timers_running_witness :
    (getTimer
        (runEvents initialApp
          [TimerEvent.addClass ⟨"math", "Math"⟩, TimerEvent.addClass ⟨"physics", "Physics"⟩,
           TimerEvent.start "math" 1000, TimerEvent.start "physics" 2000])
        "math").map Timer.state = some TimerState.running ∧
    (getTimer
        (runEvents initialApp
          [TimerEvent.addClass ⟨"math", "Math"⟩, TimerEvent.addClass ⟨"physics", "Physics"⟩,
           TimerEvent.start "math" 1000, TimerEvent.start "physics" 2000])
        "physics").map Timer.state = some TimerState.running := by
  have h := two_timers_running
    (runEvents initialApp
      [TimerEvent.addClass ⟨"math", "Math"⟩, TimerEvent.addClass ⟨"physics", "Physics"⟩])
    "math" "physics"
    { id := "math", name := "Math", savedSeconds := 0, sessionSeconds := 0
      running := false, startTimestamp := none, state := TimerState.idle }
    { id := "physics", name := "Physics", savedSeconds := 0, sessionSeconds := 0
      running := false, startTimestamp := none, state := TimerState.idle }
    1000 2000 (by decide) (by decide) (by decide)
  have hrun : runEvents initialApp
      [TimerEvent.addClass ⟨"math", "Math"⟩, TimerEvent.addClass ⟨"physics", "Physics"⟩,
       TimerEvent.start "math" 1000, TimerEvent.start "physics" 2000]
      = timerStart
          (timerStart
            (runEvents initialApp
              [TimerEvent.addClass ⟨"math", "Math"⟩,
               TimerEvent.addClass ⟨"physics", "Physics"⟩])
            "math" 1000)
          "physics" 2000 := rfl
  rw [hrun, h.1, h.2]
  exact ⟨rfl, rfl⟩

/-- C27 as stated fails: a timer running since clock reading 1000 shows 3 s at 4000;
after `timerStart` or `timerResume` at 4000 the live query at 4000 returns 0. -/
theorem restart_drops_elapsed_time :
    getLiveSessionSeconds
      (getTimer
        (runEvents initialApp
          [TimerEvent.addClass ⟨"math", "Math"⟩, TimerEvent.start "math" 1000])
        "math")
      4000 = 3 ∧
    getLiveSessionSeconds
      (getTimer
        (timerStart
          (runEvents initialApp
            [TimerEvent.addClass ⟨"math", "Math"⟩, TimerEvent.start "math" 1000])
          "math" 4000)
        "math")
      4000 = 0 ∧
    getLiveSessionSeconds
      (getTimer
        (timerResume
          (runEvents initialApp
            [TimerEvent.addClass ⟨"math", "Math"⟩, TimerEvent.start "math" 1000])
          "math" 4000)
        "math")
      4000 = 0 := by
  refine ⟨?_, ?_, ?_⟩
  · norm_num [runEvents, applyEvent, timerStart, initializeTimer, initialApp, getTimer, mapSet,
      mapGet, elapsedSeconds, tsToNumber, getLiveSessionSeconds, tsTruthy]
  · norm_num [runEvents, applyEvent, timerStart, initializeTimer, initialApp, getTimer, mapSet,
      mapGet, elapsedSeconds, tsToNumber, getLiveSessionSeconds, tsTruthy]
  · norm_num [runEvents, applyEvent, timerStart, timerResume, initializeTimer, initialApp,
      getTimer, mapSet, mapGet, elapsedSeconds, tsToNumber, getLiveSessionSeconds, tsTruthy]

/-- C27, amended. `timerStart` or `timerResume` on a running timer restarts the run:
the live query at `now` immediately after the call returns `sessionSeconds`, the
time elapsed since the previous `startTimestamp` being dropped; it equals the
live query immediately before the call only when `now` is that `startTimestamp`. -/
theorem restart_live_query (app : App) (classId : String) (t : Timer) (now : Int)
    (ht : getTimer app classId = some t) (hrun : t.running = true) :
    getLiveSessionSeconds (getTimer (timerStart app classId now) classId) now
      = t.sessionSeconds ∧
    getLiveSessionSeconds (getTimer (timerResume app classId now) classId) now
      = t.sessionSeconds ∧
    ∀ s : Int, t.startTimestamp = some s → s ≠ 0 →
      getLiveSessionSeconds (some t) now = t.sessionSeconds + ((now - s : Int) : ℚ) / 1000 ∧
      (getLiveSessionSeconds (some t) now
          = getLiveSessionSeconds (getTimer (timerStart app classId now) classId) now ↔
        now = s) := by
  have ht' := ht
  simp only [getTimer] at ht'
  have hstart : getTimer (timerStart app classId now) classId
      = some { t with running := true, startTimestamp := some now,
                      state := TimerState.running } := by
    simp only [timerStart, getTimer, ht', mapGet_mapSet_self]
  have hresume : getTimer (timerResume app classId now) classId
      = some { t with running := true, startTimestamp := some now,
                      state := TimerState.running } := by
    simp only [timerResume, getTimer, ht', mapGet_mapSet_self]
  have hafter : getLiveSessionSeconds
      (some { t with running := true, startTimestamp := some now,
                     state := TimerState.running }) now = t.sessionSeconds := by
    by_cases h0 : now = 0
    · simp [getLiveSessionSeconds, tsTruthy, h0]
    · simp [getLiveSessionSeconds, tsTruthy, h0, elapsedSeconds, tsToNumber]
  refine ⟨by rw [hstart, hafter], by rw [hresume, hafter], ?_⟩
  intro s hs hs0
  have hbefore : getLiveSessionSeconds (some t) now
      = t.sessionSeconds + ((now - s : Int) : ℚ) / 1000 := by
    simp [getLiveSessionSeconds, hrun, hs, tsTruthy, hs0, elapsedSeconds, tsToNumber]
  refine ⟨hbefore, ?_⟩
  rw [hstart, hafter, hbefore]
  constructor
  · intro h
    have h1 : ((now - s : Int) : ℚ) / 1000 = 0 := by linarith
    have h2 : ((now - s : Int) : ℚ) = 0 := by
      have := div_eq_zero_iff.mp h1
      rcases this with h | h
      · exact h
      · norm_num at h
    have h3 : now - s = 0 := by exact_mod_cast h2
    omega
  · intro h
    subst h
    simp

/-- Witness of C27: the timer running since 1000, started again at 4000. -/
theorem restart_live_query_witness :
    getLiveSessionSeconds
      (getTimer
        (timerStart
          (runEvents initialApp
            [TimerEvent.addClass ⟨"math", "Math"⟩, TimerEvent.start "math" 1000])
          "math" 4000)
        "math")
      4000 = 0 :=
  (restart_live_query
    (runEvents initialApp [TimerEvent.addClass ⟨"math", "Math"⟩, TimerEvent.start "math" 1000])
    "math"
    { id := "math", name := "Math", savedSeconds := 0, sessionSeconds := 0
      running := true, startTimestamp := some 1000, state := TimerState.running }
    4000 (by decide) rfl).1

/-! ### Reports to the aggregator -/

/-- C22 as stated fails: a timer started at clock reading 0 and stopped at 25000 is in
state "stopped"; the calls `timerSave` makes for it contain no record-session
request. -/
theorem timerSave_sends_nothing :
    (getTimer
        (runEvents initialApp
          [TimerEvent.addClass ⟨"math", "Math"⟩, TimerEvent.start "math" 0,
           TimerEvent.stop "math" 25000])
        "math").map Timer.state = some TimerState.stopped ∧
    (sessionReports
        (timerSaveEffects
          (runEvents initialApp
            [TimerEvent.addClass ⟨"math", "Math"⟩, TimerEvent.start "math" 0,
             TimerEvent.stop "math" 25000])
          "math")).length = 0 := by
  decide

/-- C22, amended. A Save of a stopped timer adds `sessionSeconds` to the `savedSeconds`
kept in memory, stops the tick and draws the class detail again; it sends no
record-session request. -/
theorem timerSave_no_report (app : App) (classId : String) (t : Timer)
    (ht : getTimer app classId = some t) (_hstopped : t.state = TimerState.stopped) :
    timerSaveEffects app classId = [Effect.stopTick, Effect.renderClassDetail classId] ∧
    sessionReports (timerSaveEffects app classId) = [] ∧
    (∀ seconds weekStart,
      Effect.apiRequest (sessionsRecord classId seconds weekStart)
        ∉ timerSaveEffects app classId) ∧
    ∃ t', getTimer (timerSave app classId) classId = some t' ∧
      t'.savedSeconds = t.savedSeconds + t.sessionSeconds ∧
      t'.sessionSeconds = 0 := by
  have heff : timerSaveEffects app classId
      = [Effect.stopTick, Effect.renderClassDetail classId] := by
    simp only [timerSaveEffects, ht]
  have ht' := ht
  simp only [getTimer] at ht'
  refine ⟨heff, ?_, ?_, ?_⟩
  · rw [heff]
    rfl
  · intro seconds weekStart
    rw [heff]
    simp
  · exact ⟨{ t with
        savedSeconds := t.savedSeconds + t.sessionSeconds
        sessionSeconds := 0
        startTimestamp := none
        running := false
        state := TimerState.idle },
      by simp only [timerSave, getTimer, ht', mapGet_mapSet_self], rfl, rfl⟩

/-- Witness of C22: the stopped timer of "math" is saved. -/
theorem timerSave_no_report_witness :
    sessionReports
        (timerSaveEffects
          (runEvents initialApp
            [TimerEvent.addClass ⟨"math", "Math"⟩, TimerEvent.start "math" 0,
             TimerEvent.stop "math" 25000])
          "math") = [] :=
  (timerSave_no_report
    (runEvents initialApp
      [TimerEvent.addClass ⟨"math", "Math"⟩, TimerEvent.start "math" 0,
       TimerEvent.stop "math" 25000])
    "math"
    { id := "math", name := "Math", savedSeconds := 0
      sessionSeconds := 0 + elapsedSeconds 25000 (some 0)
      running := false, startTimestamp := none, state := TimerState.stopped }
    rfl rfl).2.1

/-! ### Week start and the time zone -/

/-- On a server at or west of Greenwich `getWeekStart` returns the local date of the
Monday on or before the local date of the instant. -/
theorem getWeekStart_local_monday_west (tza date : Int) (h0 : -msPerDay < tza)
    (h1 : tza ≤ 0) :
    getWeekStart tza date
      = toISODate (MakeDate (mondayOnOrBefore (Day (LocalTime tza date))) 0) := by
  rw [getWeekStart_eq]
  apply toISODate_congr
  rw [setHours_weekStartSetDate, Day_MakeDate _ _ (le_refl 0) (by decide)]
  unfold Day msPerDay at *
  omega

/-- On a server east of Greenwich `getWeekStart` returns the date of the day before
that Monday. -/
theorem getWeekStart_day_before_east (tza date : Int) (h0 : 0 < tza) (h1 : tza ≤ msPerDay) :
    getWeekStart tza date
      = toISODate (MakeDate (mondayOnOrBefore (Day (LocalTime tza date)) - 1) 0) := by
  rw [getWeekStart_eq]
  apply toISODate_congr
  rw [setHours_weekStartSetDate, Day_MakeDate _ _ (le_refl 0) (by decide)]
  unfold Day msPerDay at *
  omega

/-- C26, on a server nine hours east of Greenwich: at 2025-06-04 03:00 UTC the local
date is Wednesday 2025-06-04 and the Monday on or before it is 2025-06-02, whose
local midnight is 2025-06-01 15:00 UTC; `getWeekStart` returns 2025-06-01. -/
theorem getWeekStart_shifted_east_of_greenwich :
    toISODate (LocalTime 32400000 1749006000000) = ⟨2025, 6, 4⟩ ∧
    toISODate (MakeDate (mondayOnOrBefore (Day (LocalTime 32400000 1749006000000))) 0)
      = ⟨2025, 6, 2⟩ ∧
    setHours 32400000 (weekStartSetDate 32400000 1749006000000) 0 0 0 0 = 1748790000000 ∧
    getWeekStart 32400000 1749006000000 = ⟨2025, 6, 1⟩ := by
  decide

/-! ### Display of a duration -/

end ClassClash
